import Mathlib

/-!
Shallow embedding of the game-state engine of `src/server/index.js`
(a two-player poker-combat card game server).

Modelling conventions:
* JS card objects become the `Card` structure; object mutation becomes
  functional record update.
* JS numbers holding non-negative integers (ranks, damage, health, armor,
  counters) become `Nat`.  `Math.max(0, a - b)` is `Nat` subtraction;
  `Math.floor(d * 0.25)` is `d / 4` and `Math.floor(d * 1.25)` is `d * 5 / 4`
  (both products are exact in binary floating point for the integer damage
  values the engine produces, so flooring agrees with `Nat` division).
* `Math.random`-driven shuffles are modelled by an explicit `shuffle`
  function parameter; theorems that need it assume the shuffle permutes
  (or at least preserves the length of) its input, and concrete runs
  instantiate it with `id`.
* `Array.prototype.sort` on numbers becomes `List.insertionSort`
  (any correct sort; only the sorted result is observed).
* `socket.emit` / `io.to(room).emit` become an explicit list of `Event`
  values returned next to the new room state.
-/

inductive Suit where
  | hearts
  | diamonds
  | clubs
  | spades
deriving DecidableEq, Repr

/-- A card object as created by `createDeck` in `src/server/index.js`:
`{ id, suit, rank, selected, markedForDiscard }`. -/
structure Card where
  id : String
  suit : Suit
  rank : Nat
  selected : Bool
  markedForDiscard : Bool
deriving DecidableEq, Repr

/-- `{ ...card, selected: false, markedForDiscard: false }` — the spread
used when cards are drawn or moved to a discard pile. -/
def cleanCard (c : Card) : Card :=
  { c with selected := false, markedForDiscard := false }

/-- The ranks of `cards`, sorted ascending:
`[...cards].sort((a, b) => a.rank - b.rank)` followed by `.map(c => c.rank)`. -/
def sortedRanks (cards : List Card) : List Nat :=
  (cards.map (fun c => c.rank)).insertionSort (· ≤ ·)

/-- `Object.values(rankCounts)`: the multiplicity of each distinct rank,
where `rankCounts[rank]` counts occurrences of `rank` in `ranks`. -/
def rankCountValues (ranks : List Nat) : List Nat :=
  ranks.dedup.map (fun r => ranks.count r)

/-- `Object.values(rankCounts).sort((a, b) => b - a)`: rank multiplicities
sorted descending. -/
def countsDesc (ranks : List Nat) : List Nat :=
  (rankCountValues ranks).insertionSort (· ≥ ·)

/-- `suits.every(suit => suit === suits[0]) && cards.length === 5`. -/
def isFlushB (cards : List Card) : Bool :=
  (match cards with
   | [] => true
   | c :: rest => rest.all (fun d => d.suit == c.suit)) && cards.length == 5

/-- `cards.length === 5 && new Set(ranks).size === 5`. -/
def fiveDistinct (cards : List Card) : Bool :=
  cards.length == 5 && (sortedRanks cards).dedup.length == 5

/-- `ranks.join(",") === "1,2,3,4,5"` on the sorted ranks
(joining five decimal numbers with commas is injective, so the string
comparison is list equality). -/
def isLowStraightB (cards : List Card) : Bool :=
  fiveDistinct cards && sortedRanks cards == [1, 2, 3, 4, 5]

/-- `ranks.join(",") === "1,10,11,12,13"` on the sorted ranks. -/
def isBroadwayStraightB (cards : List Card) : Bool :=
  fiveDistinct cards && sortedRanks cards == [1, 10, 11, 12, 13]

/-- `!isLowStraight && ranks[4] - ranks[0] === 4` (only computed for five
distinct ranks). -/
def isStraightB (cards : List Card) : Bool :=
  fiveDistinct cards && !isLowStraightB cards &&
    (sortedRanks cards).getD 4 0 - (sortedRanks cards).getD 0 0 == 4

/-- `isRoyal = isFlush && isBroadwayStraight`. -/
def isRoyalB (cards : List Card) : Bool :=
  fiveDistinct cards && isFlushB cards && isBroadwayStraightB cards

/-- Result of `validateHand`: `{ valid, error? }`. -/
structure ValidationResult where
  valid : Bool
  errMsg : Option String
deriving DecidableEq, Repr

/-- `validateHand(cards)` from `src/server/index.js` (lines 134-214). -/
def validateHand (cards : List Card) : ValidationResult :=
  if cards.length == 0 then ⟨false, some "No cards selected"⟩
  else
    match cards.length with
    | 1 => ⟨true, none⟩
    | 2 =>
      if (countsDesc (sortedRanks cards)).getD 0 0 != 2 then
        ⟨false, some "Two cards must be a pair (same rank)"⟩
      else ⟨true, none⟩
    | 3 =>
      if (countsDesc (sortedRanks cards)).getD 0 0 != 3 then
        ⟨false, some "Three cards must be three of a kind (same rank)"⟩
      else ⟨true, none⟩
    | 4 =>
      if (countsDesc (sortedRanks cards)).getD 0 0 == 4 then ⟨true, none⟩
      else if (countsDesc (sortedRanks cards)).getD 0 0 == 2 &&
        (countsDesc (sortedRanks cards)).getD 1 0 == 2 then ⟨true, none⟩
      else ⟨false, some "Four cards must be either four of a kind or two pair"⟩
    | 5 =>
      if isRoyalB cards then ⟨true, none⟩
      else if isFlushB cards && (isStraightB cards || isLowStraightB cards) then
        ⟨true, none⟩
      else if (countsDesc (sortedRanks cards)).getD 0 0 == 3 &&
        (countsDesc (sortedRanks cards)).getD 1 0 == 2 then ⟨true, none⟩
      else if isFlushB cards then ⟨true, none⟩
      else if isStraightB cards || isLowStraightB cards || isBroadwayStraightB cards then
        ⟨true, none⟩
      else
        ⟨false, some "5 cards must form: Straight, Flush, Full House, Straight Flush, or Royal Flush"⟩
    | n =>
      ⟨false, some ("Invalid number of cards: " ++ toString n ++ ". Play 1, 2, 3, 4, or 5 cards only.")⟩

/-- A `HAND_RANKINGS` entry's `damage` field (`evaluateHand`, lines 217-231). -/
def handRankingDamage : String → Nat
  | "Royal Flush" => 150
  | "Straight Flush" => 80
  | "Four of a Kind" => 60
  | "Full House" => 45
  | "Flush" => 30
  | "Straight" => 25
  | "Three of a Kind" => 20
  | "Two Pair" => 10
  | "One Pair" => 5
  | "High Card" => 1
  | _ => 0

/-- A `HAND_RANKINGS` entry's `description` field. -/
def handRankingDescription : String → String
  | "Royal Flush" => "A, K, Q, J, 10 of same suit"
  | "Straight Flush" => "5 consecutive cards of same suit"
  | "Four of a Kind" => "4 cards of same rank"
  | "Full House" => "3 of a kind + pair"
  | "Flush" => "5 cards of same suit"
  | "Straight" => "5 consecutive cards"
  | "Three of a Kind" => "3 cards of same rank"
  | "Two Pair" => "2 pairs of different ranks"
  | "One Pair" => "2 cards of same rank"
  | "High Card" => "Highest card"
  | _ => ""

/-- `{ type, damage, description }` returned by `evaluateHand`. -/
structure HandResult where
  type : String
  damage : Nat
  description : String
deriving DecidableEq, Repr

/-- Face-value damage fold of `evaluateHand` (lines 250-256): Ace counts 14,
J/Q/K count their rank, everything else its rank. -/
def faceValueDamage (cards : List Card) : Nat :=
  cards.foldl
    (fun total card =>
      if card.rank == 1 then total + 14
      else if card.rank == 13 then total + 13
      else if card.rank == 12 then total + 12
      else if card.rank == 11 then total + 11
      else total + card.rank)
    0

/-- The hand-classification chain of `evaluateHand` (lines 285-315),
returning the chosen `handType`. -/
def classifyHand (cards : List Card) : String :=
  if isRoyalB cards then "Royal Flush"
  else if isFlushB cards && (isStraightB cards || isLowStraightB cards) then "Straight Flush"
  else if (countsDesc (sortedRanks cards)).getD 0 0 == 4 then "Four of a Kind"
  else if (countsDesc (sortedRanks cards)).getD 0 0 == 3 &&
    (countsDesc (sortedRanks cards)).getD 1 0 == 2 then "Full House"
  else if isFlushB cards then "Flush"
  else if isStraightB cards || isLowStraightB cards || isBroadwayStraightB cards then "Straight"
  else if (countsDesc (sortedRanks cards)).getD 0 0 == 3 then "Three of a Kind"
  else if (countsDesc (sortedRanks cards)).getD 0 0 == 2 &&
    (countsDesc (sortedRanks cards)).getD 1 0 == 2 then "Two Pair"
  else if (countsDesc (sortedRanks cards)).getD 0 0 == 2 then "One Pair"
  else "High Card"

/-- `evaluateHand(cards)` from `src/server/index.js` (lines 216-324). -/
def evaluateHand (cards : List Card) : HandResult :=
  if cards.length == 0 then ⟨"No Cards", 0, "No cards selected"⟩
  else
    let validation := validateHand cards
    if !validation.valid then
      ⟨"Invalid Hand", 0, validation.errMsg.getD "Invalid combination"⟩
    else
      let handType := classifyHand cards
      let baseDamage := handRankingDamage handType
      let totalDamage := baseDamage + faceValueDamage cards
      ⟨handType, totalDamage,
        handRankingDescription handType ++ " (Base: " ++ toString baseDamage ++
          " + Face: " ++ toString (faceValueDamage cards) ++ ")"⟩

/-! ## Player, room and event model -/

inductive GameMode where
  | classic
  | tactical
  | recycling
deriving DecidableEq, Repr

inductive GameState where
  | waiting
  | playing
  | ended
deriving DecidableEq, Repr

/-- `GAME_MODE_CONFIG[mode].startingHealth` (lines 31-44). -/
def startingHealth : GameMode → Nat
  | .classic => 200
  | .tactical => 300
  | .recycling => 300

/-- Per-player mutable state as initialised by `startMultiplayerGame`
(lines 352-374).  `armor` and `prediction` are only initialised in
Tactical mode in the source; they are always present here and only read
under a Tactical-mode guard, exactly as in the source. -/
structure Player where
  id : String
  health : Nat
  maxHealth : Nat
  deck : List Card
  hand : List Card
  selectedCards : List Card
  discardsUsed : Nat
  discardCooldown : Nat
  maxDiscards : Nat
  maxCardsPerDiscard : Nat
  discardPile : List Card
  armor : Nat
  prediction : Option String
deriving DecidableEq, Repr

/-- A two-player room during a game (`rooms` entries, lines 434-443).
`p0`/`p1` are `room.players[0]`/`room.players[1]`. -/
structure Room where
  gameMode : GameMode
  gameState : GameState
  p0 : Player
  p1 : Player
  currentPlayer : Fin 2
  turn : Nat
  lastPlayedHand : Option HandResult
deriving DecidableEq, Repr

def Room.getPlayer (room : Room) (i : Fin 2) : Player :=
  if i = 0 then room.p0 else room.p1

def Room.setPlayer (room : Room) (i : Fin 2) (p : Player) : Room :=
  if i = 0 then { room with p0 := p } else { room with p1 := p }

/-- `1 - playerIndex`: the opposing player's index. -/
def otherIdx (i : Fin 2) : Fin 2 :=
  if i = 0 then 1 else 0

/-- Observable emissions of a handler: `socket.emit` / `io.to(room).emit`
calls, in order. -/
inductive Event where
  | errorMsg (msg : String)
  | invalidHandMsg (msg : String)
  | cardSelected (playerIndex : Fin 2) (cardId : String) (selected : Bool)
  | cardMarkedForDiscard (playerIndex : Fin 2) (cardId : String) (marked : Bool)
  | gameStateUpdate
  | predictionMade (playerIndex : Fin 2) (predictionStr : String)
  | handPlayed (playerIndex : Fin 2) (handResult : HandResult)
      (newCurrentPlayer : Fin 2) (turn : Nat)
  | gameEnded (winnerId : String) (handResult : HandResult)
  | armorBuilt (playerIndex : Fin 2) (armorGained : Nat) (handResult : HandResult)
deriving DecidableEq, Repr

/-! ## Deck helpers -/

/-- The 52-card product of 4 suits × 13 ranks built by `createDeck`
(lines 47-70) before its Fisher–Yates shuffle.  The `Math.random()`
suffix of the JS id is modelled away: suit and rank already make the
ids distinct. -/
def createDeckBase : List Card :=
  ([Suit.hearts, Suit.diamonds, Suit.clubs, Suit.spades].map (fun suit =>
    (List.range 13).map (fun i =>
      { id := (match suit with
               | Suit.hearts => "hearts"
               | Suit.diamonds => "diamonds"
               | Suit.clubs => "clubs"
               | Suit.spades => "spades") ++ "-" ++ toString (i + 1),
        suit := suit, rank := i + 1,
        selected := false, markedForDiscard := false }))).flatten

/-- `ensureDeckHasCards(deck, discardPile, cardsNeeded)` (lines 73-111).
The source mutates `deck` and `discardPile` in place; here the new values
are returned together with the boolean result.  The shuffle of the discard
pile is the explicit `shuffle` parameter. -/
def ensureDeckHasCards (shuffle : List Card → List Card)
    (deck discardPile : List Card) (cardsNeeded : Nat) :
    List Card × List Card × Bool :=
  if deck.length ≥ cardsNeeded then (deck, discardPile, true)
  else if discardPile.length > 0 then
    (deck ++ shuffle discardPile, [],
     decide ((deck ++ shuffle discardPile).length ≥ cardsNeeded))
  else (deck, discardPile, decide (deck.length ≥ cardsNeeded))

/-- `addToDiscardPile(discardPile, cards)` (lines 114-132): append the cards
with their transient flags cleared. -/
def addToDiscardPile (discardPile cards : List Card) : List Card :=
  discardPile ++ cards.map cleanCard

/-- `deck.splice(0, n).map(card => ({...card, selected:false,
markedForDiscard:false}))`: the drawn cards and the remaining deck. -/
def drawCards (deck : List Card) (n : Nat) : List Card × List Card :=
  ((deck.take n).map cleanCard, deck.drop n)

/-! ## Game-start initialisation -/

/-- The per-player initialisation of `startMultiplayerGame` (lines 352-374):
fresh deck, 8 cards dealt, counters reset.  The freshly created shuffled
deck is the `deck` parameter. -/
def initPlayer (deck : List Card) (health0 : Nat) (p : Player) : Player :=
  { p with
    health := health0, maxHealth := health0,
    deck := deck.drop 8, hand := deck.take 8,
    selectedCards := [],
    discardsUsed := 0, discardCooldown := 0,
    maxDiscards := 3, maxCardsPerDiscard := 5,
    discardPile := [],
    armor := 0, prediction := none }

/-- `startMultiplayerGame(roomId)` (lines 342-400), restricted to its state
changes.  `deck0`/`deck1` are the two `createDeck()` results and `first`
the random starting player. -/
def startMultiplayerGame (deck0 deck1 : List Card) (first : Fin 2)
    (room : Room) : Room :=
  let cfg := startingHealth room.gameMode
  { room with
    p0 := initPlayer deck0 cfg room.p0,
    p1 := initPlayer deck1 cfg room.p1,
    gameState := .playing,
    currentPlayer := first,
    turn := 1 }

/-! ## Socket handlers

Each handler takes the room, the acting player's index (the player resolved
from the socket id) and its payload, and returns the new room state together
with the list of emitted events.  The `!room || !player` guards of the
source correspond to the actor being one of the room's two players, which
the index type enforces. -/

/-- `hand.find(c => c.id === cardId)`. -/
def findCard (hand : List Card) (cardId : String) : Option Card :=
  hand.find? (fun c => c.id == cardId)

/-- `card.selected = !card.selected` on the first card with the given id
(the object mutated by the source's `find`). -/
def toggleSelectedFirst : List Card → String → List Card
  | [], _ => []
  | c :: rest, cardId =>
    if c.id == cardId then { c with selected := !c.selected } :: rest
    else c :: toggleSelectedFirst rest cardId

/-- `card.markedForDiscard = !card.markedForDiscard` on the first card with
the given id. -/
def toggleMarkedFirst : List Card → String → List Card
  | [], _ => []
  | c :: rest, cardId =>
    if c.id == cardId then { c with markedForDiscard := !c.markedForDiscard } :: rest
    else c :: toggleMarkedFirst rest cardId

/-- The `selectCard` handler (lines 507-531). -/
def selectCard (room : Room) (actor : Fin 2) (cardId : String) :
    Room × List Event :=
  if room.gameState ≠ .playing then (room, [])
  else if actor ≠ room.currentPlayer then (room, [])
  else
    let currentPlayer := room.getPlayer actor
    match findCard currentPlayer.hand cardId with
    | none => (room, [])
    | some card =>
      let hand1 := toggleSelectedFirst currentPlayer.hand cardId
      let p1 := { currentPlayer with
        hand := hand1,
        selectedCards := hand1.filter (fun c => c.selected) }
      (room.setPlayer actor p1,
       [Event.cardSelected actor cardId (!card.selected)])

/-- The `markForDiscard` handler (lines 533-553).  In the source the found
card object is mutated in place; `selectedCards` holds references to the
same objects, so when the toggled card is selected the toggle is visible
in `selectedCards` as well. -/
def markForDiscard (room : Room) (actor : Fin 2) (cardId : String) :
    Room × List Event :=
  if room.gameState ≠ .playing then (room, [])
  else if actor ≠ room.currentPlayer then (room, [])
  else
    let currentPlayer := room.getPlayer actor
    match findCard currentPlayer.hand cardId with
    | none => (room, [])
    | some card =>
      let p1 := { currentPlayer with
        hand := toggleMarkedFirst currentPlayer.hand cardId,
        selectedCards :=
          if card.selected then
            toggleMarkedFirst currentPlayer.selectedCards cardId
          else currentPlayer.selectedCards }
      (room.setPlayer actor p1,
       [Event.cardMarkedForDiscard actor cardId (!card.markedForDiscard)])

/-- The post-guard body of the `discardCards` handler (lines 579-634). -/
def discardCardsBody (shuffle : List Card → List Card) (room : Room)
    (actor : Fin 2) : Room × List Event :=
  let currentPlayer := room.getPlayer actor
  let selectedCards := currentPlayer.selectedCards
  -- `ensureDeckHasCards` mutates the player's deck and discard pile in
  -- place even when it ends up returning false.
  let ens := ensureDeckHasCards shuffle currentPlayer.deck
    currentPlayer.discardPile selectedCards.length
  if !ens.2.2 then
    (room.setPlayer actor
      { currentPlayer with deck := ens.1, discardPile := ens.2.1 },
     [Event.errorMsg "Not enough cards available to complete discard"])
  else
    let hand1 := currentPlayer.hand.filter (fun c => !c.selected)
    let discard1 := addToDiscardPile ens.2.1 selectedCards
    let drawn := drawCards ens.1 selectedCards.length
    let discardsUsed1 := currentPlayer.discardsUsed + 1
    let p1 := { currentPlayer with
      hand := hand1 ++ drawn.1,
      selectedCards := [],
      deck := drawn.2,
      discardPile := discard1,
      discardsUsed := discardsUsed1,
      discardCooldown :=
        if discardsUsed1 ≥ currentPlayer.maxDiscards then 5
        else currentPlayer.discardCooldown }
    (room.setPlayer actor p1, [Event.gameStateUpdate])

/-- The `discardCards` handler (lines 555-634). -/
def discardCards (shuffle : List Card → List Card) (room : Room)
    (actor : Fin 2) : Room × List Event :=
  if room.gameState ≠ .playing then (room, [])
  else if actor ≠ room.currentPlayer then (room, [])
  else
    let currentPlayer := room.getPlayer actor
    let selectedCards := currentPlayer.selectedCards
    if selectedCards.length == 0 ||
       selectedCards.length > currentPlayer.maxCardsPerDiscard ||
       currentPlayer.discardsUsed ≥ currentPlayer.maxDiscards ||
       currentPlayer.discardCooldown > 0 then (room, [])
    else discardCardsBody shuffle room actor

/-- The `makePrediction` handler (lines 637-658).  Note the source checks
the game mode but not `gameState`, and rejects predictions made on one's
own turn with an `error` emit. -/
def makePrediction (room : Room) (actor : Fin 2) (predictionStr : String) :
    Room × List Event :=
  if room.gameMode ≠ .tactical then (room, [])
  else if actor = room.currentPlayer then
    (room, [Event.errorMsg "You cannot predict your own hand"])
  else
    let currentPlayer := room.getPlayer actor
    (room.setPlayer actor { currentPlayer with prediction := some predictionStr },
     [Event.predictionMade actor predictionStr])

/-- The Tactical prediction modifier of `playHand` (lines 684-703): a
matching prediction quarters the damage (`Math.floor(damage * 0.25)`), a
wrong one raises it by a quarter (`Math.floor(damage * 1.25)`), and the
prediction is cleared either way.  Returns the new damage and the updated
defender. -/
def applyPredictionMod (mode : GameMode) (enemy : Player)
    (handResult : HandResult) : Nat × Player :=
  if mode = .tactical then
    match enemy.prediction with
    | some pred =>
      if pred == handResult.type then
        (handResult.damage / 4, { enemy with prediction := none })
      else
        (handResult.damage * 5 / 4, { enemy with prediction := none })
    | none => (handResult.damage, enemy)
  else (handResult.damage, enemy)

/-- The Tactical armor modifier of `playHand` (lines 706-713):
`absorbed = min(armor, damage); armor -= absorbed; damage -= absorbed`. -/
def applyArmorMod (mode : GameMode) (enemy : Player) (damage : Nat) :
    Nat × Player :=
  if mode = .tactical ∧ enemy.armor > 0 then
    let armorAbsorbed := min enemy.armor damage
    (damage - armorAbsorbed, { enemy with armor := enemy.armor - armorAbsorbed })
  else (damage, enemy)

/-- The end-of-turn cooldown tick of `playHand` (lines 804-813): in
Recycling mode a positive cooldown is decremented and, on reaching 0,
`discardsUsed` is reset. -/
def tickCooldownPlayHand (mode : GameMode) (p : Player) : Player :=
  if p.discardCooldown > 0 ∧ mode = .recycling then
    if p.discardCooldown - 1 = 0 then
      { p with discardCooldown := p.discardCooldown - 1, discardsUsed := 0 }
    else { p with discardCooldown := p.discardCooldown - 1 }
  else p

/-- The end-of-turn cooldown tick of `buildArmor` (lines 949-956): no mode
check, and the body of the `=== 0` test is the statement `p.discardsUsed;`,
which has no effect. -/
def tickCooldownBuildArmor (p : Player) : Player :=
  if p.discardCooldown > 0 then { p with discardCooldown := p.discardCooldown - 1 }
  else p

/-- The card-replacement block of a successful `playHand` (lines 726-780),
applied to the acting player.
`if (room.gameMode === GAME_MODES.CLASSIC || GAME_MODES.RECYCLING)`:
`GAME_MODES.RECYCLING` is the non-empty string `"recycling"`, which is
truthy, so this condition is true in every mode and the `else` branch
(full 8-card hand replacement) is unreachable dead code. -/
def replaceCardsPlayHand (shuffle : List Card → List Card) (mode : GameMode)
    (currentPlayer : Player) : Player :=
  let playedCards := currentPlayer.hand.filter (fun c => c.selected)
  let hand1 := currentPlayer.hand.filter (fun c => !c.selected)
  let discard1 := addToDiscardPile currentPlayer.discardPile playedCards
  if mode = .classic ∨ True then
    let cardsToReplace := playedCards.length
    let ens := ensureDeckHasCards shuffle currentPlayer.deck discard1
      cardsToReplace
    let availableCards := min cardsToReplace ens.1.length
    let drawn := drawCards ens.1 availableCards
    { currentPlayer with
      hand := hand1 ++ drawn.1, selectedCards := [],
      deck := drawn.2, discardPile := ens.2.1 }
  else
    -- dead code in the source: full 8-card hand replacement
    let ens := ensureDeckHasCards shuffle currentPlayer.deck discard1 8
    let availableCards := min 8 ens.1.length
    let drawn := drawCards ens.1 availableCards
    { currentPlayer with
      hand := drawn.1, selectedCards := [],
      deck := drawn.2, discardPile := ens.2.1 }

/-- The post-guard body of the `playHand` handler (lines 680-836). -/
def playHandSuccess (shuffle : List Card → List Card) (room : Room)
    (actor : Fin 2) : Room × List Event :=
  let currentPlayer := room.getPlayer actor
  let enemyIdx := otherIdx actor
  let enemyPlayer := room.getPlayer enemyIdx
  let handResult := evaluateHand currentPlayer.selectedCards
  let pm := applyPredictionMod room.gameMode enemyPlayer handResult
  let am := applyArmorMod room.gameMode pm.2 pm.1
  let finalDamage := am.1
  -- `enemyPlayer.health = Math.max(0, enemyPlayer.health - finalDamage)`
  let enemy1 := { am.2 with health := am.2.health - finalDamage }
  let me1 := replaceCardsPlayHand shuffle room.gameMode currentPlayer
  let adjusted := { handResult with damage := finalDamage }
  let room1 :=
    { (room.setPlayer actor me1).setPlayer enemyIdx enemy1 with
      lastPlayedHand := some adjusted }
  if enemy1.health ≤ 0 then
    ({ room1 with gameState := .ended },
     [Event.gameEnded me1.id adjusted])
  else
    let room2 := { room1 with
      currentPlayer := otherIdx room.currentPlayer,
      turn := room.turn + 1 }
    let room3 := { room2 with
      p0 := tickCooldownPlayHand room2.gameMode room2.p0,
      p1 := tickCooldownPlayHand room2.gameMode room2.p1 }
    (room3, [Event.handPlayed actor adjusted room3.currentPlayer room3.turn])

/-- The `playHand` handler (lines 660-836). -/
def playHand (shuffle : List Card → List Card) (room : Room)
    (actor : Fin 2) : Room × List Event :=
  if room.gameState ≠ .playing then (room, [])
  else if actor ≠ room.currentPlayer then (room, [])
  else
    let currentPlayer := room.getPlayer actor
    if currentPlayer.selectedCards.length == 0 then (room, [])
    else
      let validation := validateHand currentPlayer.selectedCards
      if !validation.valid then
        (room, [Event.invalidHandMsg (validation.errMsg.getD "")])
      else playHandSuccess shuffle room actor

/-- The category→armor table of `buildArmor` (lines 876-910). -/
def armorForHandType : String → Nat
  | "High Card" => 2
  | "One Pair" => 5
  | "Two Pair" => 8
  | "Three of a Kind" => 12
  | "Straight" => 15
  | "Flush" => 18
  | "Full House" => 22
  | "Four of a Kind" => 25
  | "Straight Flush" => 30
  | "Royal Flush" => 35
  | _ => 2

/-- The post-guard body of the `buildArmor` handler (lines 872-979). -/
def buildArmorSuccess (shuffle : List Card → List Card) (room : Room)
    (actor : Fin 2) : Room × List Event :=
  let currentPlayer := room.getPlayer actor
  let handResult := evaluateHand currentPlayer.selectedCards
  let armorGained := armorForHandType handResult.type
  let newArmor := min 50 (currentPlayer.armor + armorGained)
  let actualArmorGained := newArmor - currentPlayer.armor
  let playedCards := currentPlayer.hand.filter (fun c => c.selected)
  -- the source filters the unselected cards out of the hand here, but then
  -- overwrites the hand with the freshly drawn cards below, so the
  -- unselected cards are dropped without entering the discard pile
  let discard1 := addToDiscardPile currentPlayer.discardPile playedCards
  let ens := ensureDeckHasCards shuffle currentPlayer.deck discard1 8
  let availableCards := min 8 ens.1.length
  let drawn := drawCards ens.1 availableCards
  let me1 := { currentPlayer with
    armor := newArmor,
    hand := drawn.1,
    selectedCards := [],
    deck := drawn.2,
    discardPile := ens.2.1 }
  let room1 := room.setPlayer actor me1
  let room2 := { room1 with
    currentPlayer := otherIdx room.currentPlayer,
    turn := room.turn + 1 }
  let room3 := { room2 with
    p0 := tickCooldownBuildArmor room2.p0,
    p1 := tickCooldownBuildArmor room2.p1 }
  (room3, [Event.armorBuilt actor actualArmorGained handResult])

/-- The `buildArmor` handler (lines 839-979). -/
def buildArmor (shuffle : List Card → List Card) (room : Room)
    (actor : Fin 2) : Room × List Event :=
  if room.gameMode ≠ .tactical ∨ room.gameState ≠ .playing then (room, [])
  else if actor ≠ room.currentPlayer then
    (room, [Event.errorMsg "You can only build armor on your turn"])
  else
    let currentPlayer := room.getPlayer actor
    if currentPlayer.selectedCards.length == 0 then
      (room, [Event.errorMsg "No cards selected"])
    else
      let validation := validateHand currentPlayer.selectedCards
      if !validation.valid then
        (room, [Event.invalidHandMsg (validation.errMsg.getD "")])
      else buildArmorSuccess shuffle room actor

/-! ## Concrete fixtures for witnesses and counterexamples -/

/-- A player record before game initialisation. -/
def emptyPlayer (pid : String) : Player :=
  { id := pid, health := 0, maxHealth := 0, deck := [], hand := [],
    selectedCards := [], discardsUsed := 0, discardCooldown := 0,
    maxDiscards := 3, maxCardsPerDiscard := 5, discardPile := [],
    armor := 0, prediction := none }

/-- A freshly created two-player room awaiting game start. -/
def waitingRoom (mode : GameMode) : Room :=
  { gameMode := mode, gameState := .waiting,
    p0 := emptyPlayer "P0", p1 := emptyPlayer "P1",
    currentPlayer := 0, turn := 1, lastPlayedHand := none }

/-- A room started with two unshuffled decks and player 0 to move:
each player holds hearts 1-8 and a 44-card deck. -/
def startedRoom (mode : GameMode) : Room :=
  startMultiplayerGame createDeckBase createDeckBase 0 (waitingRoom mode)

/-- `|hand| + |deck| + |discardPile|` for one player. -/
def cardTotal (p : Player) : Nat :=
  p.hand.length + p.deck.length + p.discardPile.length

/-- The stored selected-card list agrees with the hand's `selected` flags. -/
def selInv (p : Player) : Prop :=
  p.selectedCards = p.hand.filter (fun c => c.selected)

/-- The shuffle preserves the number of cards. -/
def lengthPreserving (shuffle : List Card → List Card) : Prop :=
  ∀ l, (shuffle l).length = l.length

/-- The shuffle permutes the cards. -/
def permPreserving (shuffle : List Card → List Card) : Prop :=
  ∀ l, (shuffle l).Perm l

/-- A three-card hand holding a selected pair of fives (evaluates to
"One Pair", damage `5 + 10 = 15`). -/
def pairHand : List Card :=
  [⟨"a", .hearts, 5, true, false⟩, ⟨"b", .clubs, 5, true, false⟩,
   ⟨"c", .spades, 2, false, false⟩]

/-- A mid-game player holding `pairHand` with the pair selected. -/
def pairPlayer (pid : String) (health0 : Nat) : Player :=
  { id := pid, health := health0, maxHealth := health0,
    deck := createDeckBase.drop 8,
    hand := pairHand,
    selectedCards := pairHand.filter (fun c => c.selected),
    discardsUsed := 0, discardCooldown := 0,
    maxDiscards := 3, maxCardsPerDiscard := 5,
    discardPile := [], armor := 0, prediction := none }

/-- A playing room built from two explicit players, player 0 to move. -/
def mkRoom (mode : GameMode) (a b : Player) : Room :=
  { gameMode := mode, gameState := .playing, p0 := a, p1 := b,
    currentPlayer := 0, turn := 1, lastPlayedHand := none }

/-- Tactical room for the armor-absorption scenario: attacker about to deal
15 damage, defender with 10 armor and no prediction. -/
def armorScenarioRoom : Room :=
  mkRoom .tactical (pairPlayer "P0" 300)
    { emptyPlayer "P1" with health := 300, maxHealth := 300, armor := 10 }

/-- Tactical room where the defender correctly predicted "One Pair". -/
def correctPredictionRoom : Room :=
  mkRoom .tactical (pairPlayer "P0" 300)
    ({ emptyPlayer "P1" with
         health := 300
         maxHealth := 300
         prediction := some "One Pair" })

/-- Tactical room where the defender wrongly predicted "Flush". -/
def wrongPredictionRoom : Room :=
  mkRoom .tactical (pairPlayer "P0" 300)
    ({ emptyPlayer "P1" with
         health := 300
         maxHealth := 300
         prediction := some "Flush" })

/-- Classic room whose defender has exactly 15 health, so the pair of fives
kills exactly. -/
def lethalRoom : Room :=
  mkRoom .classic (pairPlayer "P0" 200)
    { emptyPlayer "P1" with health := 15, maxHealth := 200 }

/-- Player whose deck and discard pile together cannot cover a two-card
discard: empty deck, one discarded card, two selected. -/
def starvedPlayer : Player :=
  { id := "P0", health := 200, maxHealth := 200,
    deck := [],
    hand := pairHand,
    selectedCards := pairHand.filter (fun c => c.selected),
    discardsUsed := 0, discardCooldown := 0,
    maxDiscards := 3, maxCardsPerDiscard := 5,
    discardPile := [⟨"d", .diamonds, 9, false, false⟩],
    armor := 0, prediction := none }

/-- Classic room around `starvedPlayer`. -/
def starvedRoom : Room :=
  mkRoom .classic starvedPlayer (emptyPlayer "P1")

/-- Recycling room where player 0 has used two of three discards and has a
pair of fives selected, so the next discard is the last one. -/
def lastDiscardRoom : Room :=
  mkRoom .recycling
    { pairPlayer "P0" 300 with discardsUsed := 2 }
    { emptyPlayer "P1" with health := 300, maxHealth := 300 }

/-- Recycling room where both players are on cooldown (1 and 3) and player 0
is about to play the selected pair. -/
def cooldownRoom : Room :=
  mkRoom .recycling
    { pairPlayer "P0" 300 with discardsUsed := 3, discardCooldown := 1 }
    ({ emptyPlayer "P1" with
         health := 300
         maxHealth := 300
         discardsUsed := 3
         discardCooldown := 3 })

/-- The raw (unmodified) hand result the acting player is about to play. -/
def rawHandResult (room : Room) (actor : Fin 2) : HandResult :=
  evaluateHand (room.getPlayer actor).selectedCards

/-- The defending player after a `playHand` call. -/
def defenderAfter (shuffle : List Card → List Card) (room : Room)
    (actor : Fin 2) : Player :=
  (playHand shuffle room actor).1.getPlayer (otherIdx actor)

/-- The modifier-adjusted damage a successful `playHand` deals: the raw
evaluated damage pushed through the prediction and armor modifiers. -/
def finalDamageOf (room : Room) (actor : Fin 2) : Nat :=
  (applyArmorMod room.gameMode
    (applyPredictionMod room.gameMode (room.getPlayer (otherIdx actor))
      (rawHandResult room actor)).2
    (applyPredictionMod room.gameMode (room.getPlayer (otherIdx actor))
      (rawHandResult room actor)).1).1

/-- A low straight with mixed suits: ranks 1-5. -/
def lowStraightMixed : List Card :=
  [⟨"a", .hearts, 1, true, false⟩, ⟨"b", .clubs, 2, true, false⟩,
   ⟨"c", .spades, 3, true, false⟩, ⟨"d", .hearts, 4, true, false⟩,
   ⟨"e", .diamonds, 5, true, false⟩]

/-- The broadway ranks 1,10,11,12,13, all hearts. -/
def broadwaySuited : List Card :=
  [⟨"a", .hearts, 1, true, false⟩, ⟨"b", .hearts, 10, true, false⟩,
   ⟨"c", .hearts, 11, true, false⟩, ⟨"d", .hearts, 12, true, false⟩,
   ⟨"e", .hearts, 13, true, false⟩]

/-- The broadway ranks with mixed suits. -/
def broadwayMixed : List Card :=
  [⟨"a", .hearts, 1, true, false⟩, ⟨"b", .clubs, 10, true, false⟩,
   ⟨"c", .hearts, 11, true, false⟩, ⟨"d", .hearts, 12, true, false⟩,
   ⟨"e", .hearts, 13, true, false⟩]

/-- An ace-high five-card run that is neither the low straight nor the
broadway pattern: ranks 1,3,4,5,6 with mixed suits. -/
def aceJunk : List Card :=
  [⟨"a", .hearts, 1, true, false⟩, ⟨"b", .clubs, 3, true, false⟩,
   ⟨"c", .spades, 4, true, false⟩, ⟨"d", .hearts, 5, true, false⟩,
   ⟨"e", .diamonds, 6, true, false⟩]

/-! ## Helper lemmas -/

theorem getPlayer_setPlayer_self (room : Room) (i : Fin 2) (p : Player) :
    (room.setPlayer i p).getPlayer i = p := by
  fin_cases i <;> simp [Room.getPlayer, Room.setPlayer]

theorem getPlayer_setPlayer_other (room : Room) (i j : Fin 2) (p : Player)
    (h : j ≠ i) : (room.setPlayer i p).getPlayer j = room.getPlayer j := by
  fin_cases i <;> fin_cases j <;> simp_all [Room.getPlayer, Room.setPlayer]

theorem otherIdx_ne (i : Fin 2) : otherIdx i ≠ i := by
  fin_cases i <;> decide

theorem cardTotal_tickCooldownPlayHand (mode : GameMode) (p : Player) :
    cardTotal (tickCooldownPlayHand mode p) = cardTotal p := by
  unfold tickCooldownPlayHand cardTotal
  split_ifs <;> rfl

theorem cardTotal_tickCooldownBuildArmor (p : Player) :
    cardTotal (tickCooldownBuildArmor p) = cardTotal p := by
  unfold tickCooldownBuildArmor cardTotal
  split_ifs <;> rfl

theorem ensure_lengths (shuffle : List Card → List Card)
    (hsh : lengthPreserving shuffle) (deck dp : List Card) (n : Nat) :
    (ensureDeckHasCards shuffle deck dp n).1.length +
      (ensureDeckHasCards shuffle deck dp n).2.1.length
      = deck.length + dp.length := by
  unfold lengthPreserving at hsh
  unfold ensureDeckHasCards
  split_ifs <;> simp [hsh]

theorem ensure_ok_length (shuffle : List Card → List Card)
    (deck dp : List Card) (n : Nat)
    (h : (ensureDeckHasCards shuffle deck dp n).2.2 = true) :
    n ≤ (ensureDeckHasCards shuffle deck dp n).1.length := by
  unfold ensureDeckHasCards at *
  split_ifs at h ⊢ <;> simp_all

theorem length_toggleSelectedFirst (l : List Card) (cardId : String) :
    (toggleSelectedFirst l cardId).length = l.length := by
  induction l with
  | nil => rfl
  | cons c rest ih =>
    unfold toggleSelectedFirst
    split_ifs <;> simp [ih]

theorem length_toggleMarkedFirst (l : List Card) (cardId : String) :
    (toggleMarkedFirst l cardId).length = l.length := by
  induction l with
  | nil => rfl
  | cons c rest ih =>
    unfold toggleMarkedFirst
    split_ifs <;> simp [ih]

theorem length_filter_split (l : List Card) :
    (l.filter (fun c => c.selected)).length +
      (l.filter (fun c => !c.selected)).length = l.length :=
  (List.length_eq_length_filter_add (fun (c : Card) => c.selected)).symm

theorem validateHand_invalid_errMsg (cards : List Card)
    (h : (validateHand cards).valid = false) :
    ∃ e, (validateHand cards).errMsg = some e := by
  revert h
  unfold validateHand
  split
  · intro _; exact ⟨_, rfl⟩
  · split <;> ((try split_ifs) <;> simp)

theorem classifyHand_ne_invalid (cards : List Card) :
    classifyHand cards ≠ "Invalid Hand" := by
  unfold classifyHand
  split_ifs <;> decide

/-- `evaluateHand` on a non-empty card list, phrased by validity. -/
theorem evaluateHand_eq (cards : List Card) (hne : cards ≠ []) :
    evaluateHand cards =
      (if (validateHand cards).valid = false then
        ⟨"Invalid Hand", 0, (validateHand cards).errMsg.getD "Invalid combination"⟩
      else
        ⟨classifyHand cards,
          handRankingDamage (classifyHand cards) + faceValueDamage cards,
          handRankingDescription (classifyHand cards) ++ " (Base: " ++
            toString (handRankingDamage (classifyHand cards)) ++
            " + Face: " ++ toString (faceValueDamage cards) ++ ")"⟩) := by
  have hlen : ¬((cards.length == 0) = true) := by
    simpa [List.length_eq_zero] using hne
  unfold evaluateHand
  rw [if_neg hlen]
  cases hv : (validateHand cards).valid <;> simp [hv]

/-! ## Claim C3 -/

/-- C3 (counterexample): on the empty list the claimed equivalence fails —
`validateHand []` is invalid, yet `evaluateHand []` returns the type
"No Cards", not "Invalid Hand". -/
theorem C3_counterexample :
    (validateHand []).valid = false ∧
    (evaluateHand []).type = "No Cards" ∧
    (evaluateHand []).type ≠ "Invalid Hand" := by
  refine ⟨rfl, rfl, ?_⟩
  decide

/-- C3 (amended): for every NON-EMPTY list of cards, `evaluateHand cards`
has type "Invalid Hand" iff `validateHand cards` is invalid, and in that
case it carries damage 0 and the validator's error as its description.
On the empty list `evaluateHand` instead returns a zero-damage "No Cards"
result before consulting the validator, even though the validator also
rejects the empty list. -/
theorem C3_validate_gates_evaluate (cards : List Card) (hne : cards ≠ []) :
    ((evaluateHand cards).type = "Invalid Hand" ↔
      (validateHand cards).valid = false) ∧
    ((validateHand cards).valid = false →
      (evaluateHand cards).damage = 0 ∧
      ∃ e, (validateHand cards).errMsg = some e ∧
        (evaluateHand cards).description = e) := by
  rw [evaluateHand_eq cards hne]
  cases hv : (validateHand cards).valid with
  | false =>
    simp only [if_pos rfl]
    refine ⟨by simp, fun _ => ⟨rfl, ?_⟩⟩
    obtain ⟨e, he⟩ := validateHand_invalid_errMsg cards hv
    exact ⟨e, he, by simp [he]⟩
  | true =>
    rw [if_neg (show ¬(true = false) by simp)]
    constructor
    · simp [classifyHand_ne_invalid cards]
    · intro h; exact absurd h (by simp)

/-- C3 witness: the amended theorem applied to a concrete invalid two-card
hand (a five and a six). -/
theorem C3_validate_gates_evaluate_witness :
    (evaluateHand [⟨"a", .hearts, 5, true, false⟩, ⟨"b", .clubs, 6, true, false⟩]).type
      = "Invalid Hand" ↔
    (validateHand [⟨"a", .hearts, 5, true, false⟩, ⟨"b", .clubs, 6, true, false⟩]).valid
      = false :=
  (C3_validate_gates_evaluate
    [⟨"a", .hearts, 5, true, false⟩, ⟨"b", .clubs, 6, true, false⟩]
    (by decide)).1

/-! ## Claim C2 -/

/-- C2 (code bug): in a Tactical room the hand is NOT fully redrawn after a
successful `playHand`.  Player 0 starts with hearts 1-8 in hand, selects and
plays the ace of hearts; the claimed full redraw would leave 8 fresh deck
cards (hearts 9-13 and diamonds 1-3), but the engine keeps the seven
unplayed cards and draws exactly one replacement, because
`room.gameMode === GAME_MODES.CLASSIC || GAME_MODES.RECYCLING` is always
true (`GAME_MODES.RECYCLING` is a truthy string), so every mode takes the
classic replace-only-played branch. -/
theorem C2_mode_replenishment_bug :
    (startedRoom .tactical).gameMode = .tactical ∧
    (((playHand id (selectCard (startedRoom .tactical) 0 "hearts-1").1 0).1.getPlayer
        0).hand.map (fun c => c.id))
      = ["hearts-2", "hearts-3", "hearts-4", "hearts-5", "hearts-6",
         "hearts-7", "hearts-8", "hearts-9"] := by
  exact ⟨rfl, by decide⟩

/-! ## Claim C1, counterexample -/

/-- C1 (counterexample): card conservation fails.  In a started Tactical
game (each player holding 8 of their 52 cards) player 0 selects one card
and builds armor with it; the seven unselected hand cards are dropped
without entering the discard pile, leaving `|hand| + |deck| + |discardPile|
= 45 ≠ 52`. -/
theorem C1_counterexample :
    cardTotal ((startedRoom .tactical).getPlayer 0) = 52 ∧
    cardTotal ((buildArmor id
        (selectCard (startedRoom .tactical) 0 "hearts-1").1 0).1.getPlayer 0)
      = 45 := by
  exact ⟨rfl, by decide⟩

/-! ## Claim C5, counterexample -/

/-- C5 (counterexample): precondition violations are NOT all silently
dropped.  (1) An out-of-turn `buildArmor` in a playing Tactical room
leaves the state unchanged but emits an `error` event to the actor.
(2) `makePrediction` never checks the game state: a prediction by the
non-current player in a Tactical room that is still `waiting` (not
`playing`) mutates the room (the prediction is stored) and broadcasts a
`predictionMade` event.  (3) A prediction attempted on one's own turn is
answered with an `error` event instead of silence. -/
theorem C5_counterexample :
    (buildArmor id (startedRoom .tactical) 1
      = ((startedRoom .tactical),
         [Event.errorMsg "You can only build armor on your turn"])) ∧
    ((waitingRoom .tactical).gameState ≠ .playing ∧
     makePrediction (waitingRoom .tactical) 1 "Flush"
      = ((waitingRoom .tactical).setPlayer 1
           { (waitingRoom .tactical).getPlayer 1 with prediction := some "Flush" },
         [Event.predictionMade 1 "Flush"]) ∧
     ((makePrediction (waitingRoom .tactical) 1 "Flush").1.getPlayer 1).prediction
      = some "Flush") ∧
    (makePrediction (startedRoom .tactical) 0 "Flush"
      = ((startedRoom .tactical),
         [Event.errorMsg "You cannot predict your own hand"])) := by
  exact ⟨rfl, ⟨by decide, rfl, rfl⟩, rfl⟩

/-! ## Claim C6, counterexample -/

/-- C6 (counterexample): when `discardCards` fails for lack of cards, the
deck and discard pile are NOT left unchanged: `starvedRoom`'s player 0 has
an empty deck and a one-card discard pile and tries to discard two cards;
the call fails with the structural error, but the discard pile has been
shuffled into the deck (deck `[] → [c]`, discard pile `[c] → []`). -/
theorem C6_counterexample :
    (discardCards id starvedRoom 0).2
      = [Event.errorMsg "Not enough cards available to complete discard"] ∧
    ((discardCards id starvedRoom 0).1.getPlayer 0).deck
      = [⟨"d", .diamonds, 9, false, false⟩] ∧
    ((discardCards id starvedRoom 0).1.getPlayer 0).deck ≠ starvedPlayer.deck ∧
    ((discardCards id starvedRoom 0).1.getPlayer 0).discardPile = [] := by
  exact ⟨rfl, rfl, by decide, rfl⟩

theorem playHand_eq_success (shuffle : List Card → List Card) (room : Room)
    (actor : Fin 2) (hstate : room.gameState = .playing)
    (hturn : actor = room.currentPlayer)
    (hsel : (room.getPlayer actor).selectedCards ≠ [])
    (hvalid : (validateHand (room.getPlayer actor).selectedCards).valid = true) :
    playHand shuffle room actor = playHandSuccess shuffle room actor := by
  have h1 : ¬(room.gameState ≠ GameState.playing) := by simp [hstate]
  have h2 : ¬(actor ≠ room.currentPlayer) := by simp [hturn]
  have h3 : ¬(((room.getPlayer actor).selectedCards.length == 0) = true) := by
    simpa [List.length_eq_zero] using hsel
  have h4 : ¬((!(validateHand (room.getPlayer actor).selectedCards).valid) = true) := by
    simp [hvalid]
  unfold playHand
  simp only [if_neg h1, if_neg h2, if_neg h3, if_neg h4]

theorem playHandSuccess_enemy_fields (shuffle : List Card → List Card)
    (room : Room) (actor : Fin 2) :
    ((playHandSuccess shuffle room actor).1.getPlayer (otherIdx actor)).health
        = (applyArmorMod room.gameMode
            (applyPredictionMod room.gameMode (room.getPlayer (otherIdx actor))
              (rawHandResult room actor)).2
            (applyPredictionMod room.gameMode (room.getPlayer (otherIdx actor))
              (rawHandResult room actor)).1).2.health - finalDamageOf room actor ∧
    ((playHandSuccess shuffle room actor).1.getPlayer (otherIdx actor)).armor
        = (applyArmorMod room.gameMode
            (applyPredictionMod room.gameMode (room.getPlayer (otherIdx actor))
              (rawHandResult room actor)).2
            (applyPredictionMod room.gameMode (room.getPlayer (otherIdx actor))
              (rawHandResult room actor)).1).2.armor ∧
    ((playHandSuccess shuffle room actor).1.getPlayer (otherIdx actor)).prediction
        = (applyArmorMod room.gameMode
            (applyPredictionMod room.gameMode (room.getPlayer (otherIdx actor))
              (rawHandResult room actor)).2
            (applyPredictionMod room.gameMode (room.getPlayer (otherIdx actor))
              (rawHandResult room actor)).1).2.prediction := by
  fin_cases actor <;>
    (refine ⟨?_, ?_, ?_⟩ <;>
      (simp only [playHandSuccess, Room.setPlayer, Room.getPlayer, otherIdx,
        rawHandResult, finalDamageOf]
       split_ifs <;>
         simp [tickCooldownPlayHand] <;> split_ifs <;> simp))

/-! ## Claim C4 -/

/-- C4: the Tactical combat modifier pipeline of `playHand`.  For a
successful play, writing `enemy` for the defender before the call and
`hr` for the attacker's evaluated hand: with an active prediction `pr`,
the damage becomes `hr.damage / 4` (that is, `Math.floor(damage * 0.25)`)
when `pr` equals the evaluated category and `hr.damage * 5 / 4`
(`Math.floor(damage * 1.25)`) otherwise, and the prediction is cleared in
both cases; armor then absorbs `min armor damage`; the remainder is
subtracted from the defender's health (floored at 0 by `Nat` subtraction).
Non-Tactical modes pass the raw damage through with armor and prediction
untouched. -/
theorem C4_tactical_modifier_pipeline (shuffle : List Card → List Card)
    (room : Room) (actor : Fin 2) (hstate : room.gameState = .playing)
    (hturn : actor = room.currentPlayer)
    (hsel : (room.getPlayer actor).selectedCards ≠ [])
    (hvalid : (validateHand (room.getPlayer actor).selectedCards).valid = true) :
    (∀ pr, room.gameMode = .tactical →
      (room.getPlayer (otherIdx actor)).prediction = some pr →
      (defenderAfter shuffle room actor).prediction = none ∧
      (defenderAfter shuffle room actor).armor
        = (room.getPlayer (otherIdx actor)).armor -
          min (room.getPlayer (otherIdx actor)).armor
            (if pr = (rawHandResult room actor).type
             then (rawHandResult room actor).damage / 4
             else (rawHandResult room actor).damage * 5 / 4) ∧
      (defenderAfter shuffle room actor).health
        = (room.getPlayer (otherIdx actor)).health -
          ((if pr = (rawHandResult room actor).type
            then (rawHandResult room actor).damage / 4
            else (rawHandResult room actor).damage * 5 / 4) -
           min (room.getPlayer (otherIdx actor)).armor
             (if pr = (rawHandResult room actor).type
              then (rawHandResult room actor).damage / 4
              else (rawHandResult room actor).damage * 5 / 4))) ∧
    (room.gameMode = .tactical →
      (room.getPlayer (otherIdx actor)).prediction = none →
      (defenderAfter shuffle room actor).prediction = none ∧
      (defenderAfter shuffle room actor).armor
        = (room.getPlayer (otherIdx actor)).armor -
          min (room.getPlayer (otherIdx actor)).armor
            (rawHandResult room actor).damage ∧
      (defenderAfter shuffle room actor).health
        = (room.getPlayer (otherIdx actor)).health -
          ((rawHandResult room actor).damage -
           min (room.getPlayer (otherIdx actor)).armor
             (rawHandResult room actor).damage)) ∧
    (room.gameMode ≠ .tactical →
      (defenderAfter shuffle room actor).prediction
          = (room.getPlayer (otherIdx actor)).prediction ∧
      (defenderAfter shuffle room actor).armor
          = (room.getPlayer (otherIdx actor)).armor ∧
      (defenderAfter shuffle room actor).health
        = (room.getPlayer (otherIdx actor)).health
          - (rawHandResult room actor).damage) := by
  have hps := playHandSuccess_enemy_fields shuffle room actor
  have hrw : defenderAfter shuffle room actor
      = (playHandSuccess shuffle room actor).1.getPlayer (otherIdx actor) := by
    unfold defenderAfter
    rw [playHand_eq_success shuffle room actor hstate hturn hsel hvalid]
  obtain ⟨hh, ha, hp⟩ := hps
  refine ⟨?_, ?_, ?_⟩
  · intro pr hmode hpred
    rw [hrw, hh, ha, hp]
    by_cases harm :
        (applyPredictionMod room.gameMode (room.getPlayer (otherIdx actor))
          (rawHandResult room actor)).2.armor > 0 <;>
      simp [applyPredictionMod, applyArmorMod, finalDamageOf, hmode, hpred,
        harm, beq_iff_eq] <;>
      split_ifs <;> simp_all
  · intro hmode hpred
    rw [hrw, hh, ha, hp]
    by_cases harm : (room.getPlayer (otherIdx actor)).armor > 0 <;>
      simp [applyPredictionMod, applyArmorMod, finalDamageOf, hmode, hpred,
        harm] <;> omega
  · intro hmode
    rw [hrw, hh, ha, hp]
    simp [applyPredictionMod, applyArmorMod, finalDamageOf, hmode]

/-- C4 witness: the three spec scenarios.  Armor absorption: defender with
armor 10 against 15 damage ends at health 295 and armor 0.  A wrong
"Flush" prediction against a One Pair (raw 15) yields `15 * 5 / 4 = 18`
damage; a correct "One Pair" prediction yields `15 / 4 = 3`; the
prediction is cleared. -/
theorem C4_tactical_modifier_pipeline_witness :
    (defenderAfter id armorScenarioRoom 0).health = 295 ∧
    (defenderAfter id armorScenarioRoom 0).armor = 0 ∧
    (defenderAfter id wrongPredictionRoom 0).health = 282 ∧
    (defenderAfter id wrongPredictionRoom 0).prediction = none ∧
    (defenderAfter id correctPredictionRoom 0).health = 297 := by
  have h1 := (C4_tactical_modifier_pipeline id armorScenarioRoom 0 rfl rfl
    (by decide) (by decide)).2.1 rfl rfl
  have h2 := (C4_tactical_modifier_pipeline id wrongPredictionRoom 0 rfl rfl
    (by decide) (by decide)).1 "Flush" rfl rfl
  have h3 := (C4_tactical_modifier_pipeline id correctPredictionRoom 0 rfl rfl
    (by decide) (by decide)).1 "One Pair" rfl rfl
  refine ⟨?_, ?_, ?_, ?_, ?_⟩
  · rw [h1.2.2]; decide
  · rw [h1.2.1]; decide
  · rw [h2.2.2]; decide
  · exact h2.1
  · rw [h3.2.2]; decide

theorem applyPredictionMod_health (mode : GameMode) (e : Player)
    (hr : HandResult) : (applyPredictionMod mode e hr).2.health = e.health := by
  unfold applyPredictionMod
  split_ifs
  · cases e.prediction <;> simp <;> split_ifs <;> rfl
  · rfl

theorem applyArmorMod_health (mode : GameMode) (e : Player) (d : Nat) :
    (applyArmorMod mode e d).2.health = e.health := by
  unfold applyArmorMod
  split_ifs <;> rfl

theorem replaceCardsPlayHand_id (shuffle : List Card → List Card)
    (mode : GameMode) (p : Player) :
    (replaceCardsPlayHand shuffle mode p).id = p.id := by
  unfold replaceCardsPlayHand
  split_ifs <;> rfl

/-! ## Claim C7 -/

/-- C7: when a successful `playHand` deals at least the defender's
remaining health (so `Math.max(0, health - damage)` lands on 0), the room
transitions to `ended`, the defender's health is exactly 0, the winner is
broadcast through a single `gameEnded` event carrying the acting player's
id and the modifier-adjusted hand result (also stored in
`lastPlayedHand`), and neither `currentPlayer` nor `turn` advances. -/
theorem C7_game_end_no_turn_advance (shuffle : List Card → List Card)
    (room : Room) (actor : Fin 2) (hstate : room.gameState = .playing)
    (hturn : actor = room.currentPlayer)
    (hsel : (room.getPlayer actor).selectedCards ≠ [])
    (hvalid : (validateHand (room.getPlayer actor).selectedCards).valid = true)
    (hkill : (room.getPlayer (otherIdx actor)).health ≤ finalDamageOf room actor) :
    (playHand shuffle room actor).1.gameState = .ended ∧
    (playHand shuffle room actor).1.currentPlayer = room.currentPlayer ∧
    (playHand shuffle room actor).1.turn = room.turn ∧
    ((playHand shuffle room actor).1.getPlayer (otherIdx actor)).health = 0 ∧
    (playHand shuffle room actor).2
      = [Event.gameEnded (room.getPlayer actor).id
          { rawHandResult room actor with damage := finalDamageOf room actor }] ∧
    (playHand shuffle room actor).1.lastPlayedHand
      = some { rawHandResult room actor with damage := finalDamageOf room actor } := by
  rw [playHand_eq_success shuffle room actor hstate hturn hsel hvalid]
  have hhp := applyPredictionMod_health room.gameMode
    (room.getPlayer (otherIdx actor)) (rawHandResult room actor)
  have hha := applyArmorMod_health room.gameMode
    (applyPredictionMod room.gameMode (room.getPlayer (otherIdx actor))
      (rawHandResult room actor)).2
    (applyPredictionMod room.gameMode (room.getPlayer (otherIdx actor))
      (rawHandResult room actor)).1
  rw [hhp] at hha
  fin_cases actor <;>
    (simp [playHandSuccess, Room.setPlayer, Room.getPlayer, otherIdx,
       rawHandResult, finalDamageOf] at hkill hha ⊢
     split_ifs with hcond <;>
       first
         | (refine ⟨by rfl, by rfl, by rfl, ?_, by simp [replaceCardsPlayHand_id],
             by rfl⟩
            simp at hcond ⊢
            omega)
         | (exfalso
            simp at hcond
            omega))

/-- C7 witness: in `lethalRoom` the defender has exactly 15 health and the
attacker's pair of fives deals exactly 15, so the game ends at health 0
without the turn advancing. -/
theorem C7_game_end_no_turn_advance_witness :
    (playHand id lethalRoom 0).1.gameState = .ended ∧
    (playHand id lethalRoom 0).1.currentPlayer = lethalRoom.currentPlayer ∧
    (playHand id lethalRoom 0).1.turn = lethalRoom.turn ∧
    ((playHand id lethalRoom 0).1.getPlayer (otherIdx 0)).health = 0 := by
  have h := C7_game_end_no_turn_advance id lethalRoom 0 rfl rfl
    (by decide) (by decide) (by decide)
  exact ⟨h.1, h.2.1, h.2.2.1, h.2.2.2.1⟩

/-! ## Claim C5 -/

/-- C5 (amended): `selectCard`, `markForDiscard`, `discardCards` and
`playHand` silently drop any action issued while the room is not playing,
or out of turn, or naming a nonexistent card — no state change and no
emission of any kind.  `buildArmor` silently drops the not-playing case
too, but an out-of-turn `buildArmor` in a playing Tactical room, while
leaving the state unchanged, emits an `error` event to the actor instead
of being silent.  `makePrediction` (whose precondition is inverted: only
the NON-current player may predict) silently drops only the non-Tactical
case; it performs no game-state check at all, so in a Tactical room a
prediction by the non-current player is stored and broadcast via
`predictionMade` whatever the game state, and a prediction attempted on
one's own turn is answered with an `error` event (state unchanged). -/
theorem C5_precondition_handling (shuffle : List Card → List Card)
    (room : Room) (actor : Fin 2) (cardId : String) (predStr : String) :
    (room.gameState ≠ .playing →
      selectCard room actor cardId = (room, []) ∧
      markForDiscard room actor cardId = (room, []) ∧
      discardCards shuffle room actor = (room, []) ∧
      playHand shuffle room actor = (room, []) ∧
      buildArmor shuffle room actor = (room, [])) ∧
    (actor ≠ room.currentPlayer →
      selectCard room actor cardId = (room, []) ∧
      markForDiscard room actor cardId = (room, []) ∧
      discardCards shuffle room actor = (room, []) ∧
      playHand shuffle room actor = (room, [])) ∧
    (findCard (room.getPlayer actor).hand cardId = none →
      selectCard room actor cardId = (room, []) ∧
      markForDiscard room actor cardId = (room, [])) ∧
    (room.gameMode = .tactical → room.gameState = .playing →
      actor ≠ room.currentPlayer →
      buildArmor shuffle room actor
        = (room, [Event.errorMsg "You can only build armor on your turn"])) ∧
    (room.gameMode ≠ .tactical →
      makePrediction room actor predStr = (room, [])) ∧
    (room.gameMode = .tactical → actor = room.currentPlayer →
      makePrediction room actor predStr
        = (room, [Event.errorMsg "You cannot predict your own hand"])) ∧
    (room.gameMode = .tactical → actor ≠ room.currentPlayer →
      makePrediction room actor predStr
        = (room.setPlayer actor
             { room.getPlayer actor with prediction := some predStr },
           [Event.predictionMade actor predStr])) := by
  refine ⟨?_, ?_, ?_, ?_, ?_, ?_, ?_⟩
  · intro h
    refine ⟨?_, ?_, ?_, ?_, ?_⟩ <;>
      simp [selectCard, markForDiscard, discardCards, playHand, buildArmor, h]
  · intro h
    refine ⟨?_, ?_, ?_, ?_⟩ <;>
      (simp only [selectCard, markForDiscard, discardCards, playHand]
       split_ifs <;> simp_all)
  · intro h
    constructor <;>
      (simp only [selectCard, markForDiscard]
       split_ifs <;> simp [h])
  · intro hmode hstate hne
    simp [buildArmor, hmode, hstate, hne]
  · intro h
    simp [makePrediction, h]
  · intro hmode hturn
    simp [makePrediction, hmode, hturn]
  · intro hmode hne
    simp [makePrediction, hmode, hne]

/-- C5 witness: in a playing Tactical room with player 0 to move, player 1
calling `buildArmor` gets the out-of-turn error while the room state is
untouched, an out-of-turn `selectCard` is fully silent, player 0
predicting on their own turn gets an error event, and in a Tactical room
still in `waiting` state a prediction by player 1 is stored and broadcast
despite the room not being in play. -/
theorem C5_precondition_handling_witness :
    buildArmor id (startedRoom .tactical) 1
      = ((startedRoom .tactical),
         [Event.errorMsg "You can only build armor on your turn"]) ∧
    selectCard (startedRoom .tactical) 1 "hearts-1"
      = ((startedRoom .tactical), []) ∧
    makePrediction (startedRoom .tactical) 0 "Flush"
      = ((startedRoom .tactical),
         [Event.errorMsg "You cannot predict your own hand"]) ∧
    makePrediction (waitingRoom .tactical) 1 "Flush"
      = ((waitingRoom .tactical).setPlayer 1
           { (waitingRoom .tactical).getPlayer 1 with prediction := some "Flush" },
         [Event.predictionMade 1 "Flush"]) := by
  have h := C5_precondition_handling id (startedRoom .tactical) 1 "hearts-1" "Flush"
  have h0 := C5_precondition_handling id (startedRoom .tactical) 0 "hearts-1" "Flush"
  have hw := C5_precondition_handling id (waitingRoom .tactical) 1 "hearts-1" "Flush"
  exact ⟨h.2.2.2.1 rfl rfl (by decide), (h.2.1 (by decide)).1,
         h0.2.2.2.2.2.1 rfl (by decide),
         hw.2.2.2.2.2.2 rfl (by decide)⟩

theorem discardCards_eq_body (shuffle : List Card → List Card) (room : Room)
    (actor : Fin 2) (hstate : room.gameState = .playing)
    (hturn : actor = room.currentPlayer)
    (hsel : (room.getPlayer actor).selectedCards ≠ [])
    (hmax : (room.getPlayer actor).selectedCards.length
      ≤ (room.getPlayer actor).maxCardsPerDiscard)
    (hused : (room.getPlayer actor).discardsUsed
      < (room.getPlayer actor).maxDiscards)
    (hcd : (room.getPlayer actor).discardCooldown = 0) :
    discardCards shuffle room actor = discardCardsBody shuffle room actor := by
  have h1 : ¬(room.gameState ≠ GameState.playing) := by simp [hstate]
  have h2 : ¬(actor ≠ room.currentPlayer) := by simp [hturn]
  have h3 : ¬(((room.getPlayer actor).selectedCards.length == 0 ||
      (room.getPlayer actor).selectedCards.length >
        (room.getPlayer actor).maxCardsPerDiscard ||
      (room.getPlayer actor).discardsUsed ≥ (room.getPlayer actor).maxDiscards ||
      (room.getPlayer actor).discardCooldown > 0) = true) := by
    simp only [Bool.or_eq_true, beq_iff_eq, decide_eq_true_eq, not_or,
      List.length_eq_zero]
    exact ⟨⟨⟨hsel, by omega⟩, by omega⟩, by omega⟩
  unfold discardCards
  simp only [if_neg h1, if_neg h2, if_neg h3]

theorem ensure_fail_parts (shuffle : List Card → List Card)
    (hperm : permPreserving shuffle) (deck dp : List Card) (n : Nat)
    (hfail : (ensureDeckHasCards shuffle deck dp n).2.2 = false) :
    (ensureDeckHasCards shuffle deck dp n).1 = deck ++ shuffle dp ∧
    (ensureDeckHasCards shuffle deck dp n).2.1 = [] := by
  have hnil : shuffle [] = [] := List.Perm.eq_nil (hperm [])
  unfold ensureDeckHasCards at hfail ⊢
  by_cases ha : deck.length ≥ n
  · rw [if_pos ha] at hfail
    simp at hfail
  · rw [if_neg ha] at hfail ⊢
    by_cases hb : dp.length > 0
    · rw [if_pos hb] at hfail ⊢
      exact ⟨rfl, rfl⟩
    · rw [if_neg hb] at hfail ⊢
      have hdp : dp = [] := by
        simpa [List.length_eq_zero] using hb
      subst hdp
      simp [hnil]

/-! ## Claim C6 -/

/-- C6 (amended): when `discardCards` fails because the combined deck and
discard pile cannot supply the replacements, the player's hand, selected
cards and both counters are left unchanged and nothing but the error event
is emitted — but the deck and discard pile are NOT unchanged: the discard
pile has already been shuffled into the deck by `ensureDeckHasCards`
(deck becomes `deck ++ shuffle discardPile`, discard pile becomes empty),
so only the combined deck+discard pool is preserved, as a permutation.
The other player is untouched. -/
theorem C6_discard_failure_atomicity (shuffle : List Card → List Card)
    (hperm : permPreserving shuffle) (room : Room) (actor : Fin 2)
    (hstate : room.gameState = .playing)
    (hturn : actor = room.currentPlayer)
    (hsel : (room.getPlayer actor).selectedCards ≠ [])
    (hmax : (room.getPlayer actor).selectedCards.length
      ≤ (room.getPlayer actor).maxCardsPerDiscard)
    (hused : (room.getPlayer actor).discardsUsed
      < (room.getPlayer actor).maxDiscards)
    (hcd : (room.getPlayer actor).discardCooldown = 0)
    (hfail : (ensureDeckHasCards shuffle (room.getPlayer actor).deck
      (room.getPlayer actor).discardPile
      (room.getPlayer actor).selectedCards.length).2.2 = false) :
    ((discardCards shuffle room actor).1.getPlayer actor).hand
        = (room.getPlayer actor).hand ∧
    ((discardCards shuffle room actor).1.getPlayer actor).selectedCards
        = (room.getPlayer actor).selectedCards ∧
    ((discardCards shuffle room actor).1.getPlayer actor).discardsUsed
        = (room.getPlayer actor).discardsUsed ∧
    ((discardCards shuffle room actor).1.getPlayer actor).discardCooldown
        = (room.getPlayer actor).discardCooldown ∧
    ((discardCards shuffle room actor).1.getPlayer actor).deck
        = (room.getPlayer actor).deck ++ shuffle (room.getPlayer actor).discardPile ∧
    ((discardCards shuffle room actor).1.getPlayer actor).discardPile = [] ∧
    (((discardCards shuffle room actor).1.getPlayer actor).deck ++
        ((discardCards shuffle room actor).1.getPlayer actor).discardPile).Perm
      ((room.getPlayer actor).deck ++ (room.getPlayer actor).discardPile) ∧
    (discardCards shuffle room actor).2
        = [Event.errorMsg "Not enough cards available to complete discard"] ∧
    (∀ j, j ≠ actor →
      (discardCards shuffle room actor).1.getPlayer j = room.getPlayer j) := by
  rw [discardCards_eq_body shuffle room actor hstate hturn hsel hmax hused hcd]
  obtain ⟨he1, he2⟩ := ensure_fail_parts shuffle hperm
    (room.getPlayer actor).deck (room.getPlayer actor).discardPile
    (room.getPlayer actor).selectedCards.length hfail
  unfold discardCardsBody
  rw [if_pos (by simp [hfail])]
  refine ⟨by simp [getPlayer_setPlayer_self],
    by simp [getPlayer_setPlayer_self], by simp [getPlayer_setPlayer_self],
    by simp [getPlayer_setPlayer_self], by simp [getPlayer_setPlayer_self, he1],
    by simp [getPlayer_setPlayer_self, he2], ?_, rfl, ?_⟩
  · simp only [getPlayer_setPlayer_self]
    rw [he1, he2]
    simpa using List.Perm.append_left (room.getPlayer actor).deck
      (hperm (room.getPlayer actor).discardPile)
  · intro j hj
    exact getPlayer_setPlayer_other _ actor j _ hj

/-- C6 witness: the amended theorem applied to `starvedRoom` (player 0:
empty deck, one discarded card, two selected cards). -/
theorem C6_discard_failure_atomicity_witness :
    ((discardCards id starvedRoom 0).1.getPlayer 0).hand = starvedPlayer.hand ∧
    ((discardCards id starvedRoom 0).1.getPlayer 0).discardsUsed
      = starvedPlayer.discardsUsed ∧
    ((discardCards id starvedRoom 0).1.getPlayer 0).deck
      = starvedPlayer.deck ++ id starvedPlayer.discardPile := by
  have h := C6_discard_failure_atomicity id (fun l => List.Perm.refl l)
    starvedRoom 0 rfl rfl (by decide) (by decide) (by decide) rfl (by decide)
  exact ⟨h.1, h.2.2.1, h.2.2.2.2.1⟩

theorem replaceCardsPlayHand_counters (shuffle : List Card → List Card)
    (mode : GameMode) (p : Player) :
    (replaceCardsPlayHand shuffle mode p).discardCooldown = p.discardCooldown ∧
    (replaceCardsPlayHand shuffle mode p).discardsUsed = p.discardsUsed := by
  unfold replaceCardsPlayHand
  split_ifs <;> exact ⟨rfl, rfl⟩

theorem applyPredictionMod_counters (mode : GameMode) (e : Player)
    (hr : HandResult) :
    (applyPredictionMod mode e hr).2.discardCooldown = e.discardCooldown ∧
    (applyPredictionMod mode e hr).2.discardsUsed = e.discardsUsed := by
  unfold applyPredictionMod
  split_ifs
  · cases e.prediction <;> simp <;> split_ifs <;> exact ⟨rfl, rfl⟩
  · exact ⟨rfl, rfl⟩

theorem applyArmorMod_counters (mode : GameMode) (e : Player) (d : Nat) :
    (applyArmorMod mode e d).2.discardCooldown = e.discardCooldown ∧
    (applyArmorMod mode e d).2.discardsUsed = e.discardsUsed := by
  unfold applyArmorMod
  split_ifs <;> exact ⟨rfl, rfl⟩

theorem playHand_cooldown_tick (shuffle : List Card → List Card) (room : Room)
    (actor : Fin 2) (hstate : room.gameState = .playing)
    (hturn : actor = room.currentPlayer)
    (hsel : (room.getPlayer actor).selectedCards ≠ [])
    (hvalid : (validateHand (room.getPlayer actor).selectedCards).valid = true)
    (hsurvive : finalDamageOf room actor
      < (room.getPlayer (otherIdx actor)).health) (i : Fin 2) :
    ((playHand shuffle room actor).1.getPlayer i).discardCooldown
      = (if (room.getPlayer i).discardCooldown > 0 ∧ room.gameMode = .recycling
         then (room.getPlayer i).discardCooldown - 1
         else (room.getPlayer i).discardCooldown) ∧
    ((playHand shuffle room actor).1.getPlayer i).discardsUsed
      = (if (room.getPlayer i).discardCooldown > 0 ∧ room.gameMode = .recycling
            ∧ (room.getPlayer i).discardCooldown - 1 = 0
         then 0 else (room.getPlayer i).discardsUsed) := by
  rw [playHand_eq_success shuffle room actor hstate hturn hsel hvalid]
  have hhp := applyPredictionMod_health room.gameMode
    (room.getPlayer (otherIdx actor)) (rawHandResult room actor)
  have hha := applyArmorMod_health room.gameMode
    (applyPredictionMod room.gameMode (room.getPlayer (otherIdx actor))
      (rawHandResult room actor)).2
    (applyPredictionMod room.gameMode (room.getPlayer (otherIdx actor))
      (rawHandResult room actor)).1
  rw [hhp] at hha
  have hcp := applyPredictionMod_counters room.gameMode
    (room.getPlayer (otherIdx actor)) (rawHandResult room actor)
  have hca := applyArmorMod_counters room.gameMode
    (applyPredictionMod room.gameMode (room.getPlayer (otherIdx actor))
      (rawHandResult room actor)).2
    (applyPredictionMod room.gameMode (room.getPlayer (otherIdx actor))
      (rawHandResult room actor)).1
  have hrc := fun p => replaceCardsPlayHand_counters shuffle room.gameMode p
  fin_cases actor <;> fin_cases i <;>
    (simp [playHandSuccess, Room.setPlayer, Room.getPlayer, otherIdx,
       rawHandResult, finalDamageOf] at hsurvive hha hcp hca ⊢
     split_ifs with hcond <;>
       first
         | (exfalso; simp at hcond; omega)
         | (simp [tickCooldownPlayHand, hrc, hcp, hca] <;> split_ifs <;>
             simp_all <;> omega))

/-! ## Claim C9 -/

/-- C9: the Recycling cooldown lifecycle.  (1) A successful `discardCards`
increments `discardsUsed` and sets `discardCooldown = 5` exactly when the
incremented count reaches `maxDiscards`.  (2) Each completed turn (a
successful, non-game-ending `playHand`) decrements every player's positive
`discardCooldown` by 1 in Recycling mode, and a cooldown that reaches 0
resets that player's `discardsUsed` to 0.  (3) `discardCards` is rejected
(dropped with no state change and no event) while `discardCooldown > 0`. -/
theorem C9_recycling_cooldown (shuffle : List Card → List Card) (room : Room)
    (actor : Fin 2) (hstate : room.gameState = .playing)
    (hturn : actor = room.currentPlayer) :
    (((room.getPlayer actor).selectedCards ≠ [] →
      (room.getPlayer actor).selectedCards.length
        ≤ (room.getPlayer actor).maxCardsPerDiscard →
      (room.getPlayer actor).discardsUsed < (room.getPlayer actor).maxDiscards →
      (room.getPlayer actor).discardCooldown = 0 →
      (ensureDeckHasCards shuffle (room.getPlayer actor).deck
        (room.getPlayer actor).discardPile
        (room.getPlayer actor).selectedCards.length).2.2 = true →
      ((discardCards shuffle room actor).1.getPlayer actor).discardsUsed
          = (room.getPlayer actor).discardsUsed + 1 ∧
      ((discardCards shuffle room actor).1.getPlayer actor).discardCooldown
        = (if (room.getPlayer actor).discardsUsed + 1
              ≥ (room.getPlayer actor).maxDiscards
           then 5 else (room.getPlayer actor).discardCooldown))) ∧
    ((room.getPlayer actor).selectedCards ≠ [] →
      (validateHand (room.getPlayer actor).selectedCards).valid = true →
      finalDamageOf room actor < (room.getPlayer (otherIdx actor)).health →
      ∀ i : Fin 2,
        ((playHand shuffle room actor).1.getPlayer i).discardCooldown
          = (if (room.getPlayer i).discardCooldown > 0 ∧
                room.gameMode = .recycling
             then (room.getPlayer i).discardCooldown - 1
             else (room.getPlayer i).discardCooldown) ∧
        ((playHand shuffle room actor).1.getPlayer i).discardsUsed
          = (if (room.getPlayer i).discardCooldown > 0 ∧
                room.gameMode = .recycling ∧
                (room.getPlayer i).discardCooldown - 1 = 0
             then 0 else (room.getPlayer i).discardsUsed)) ∧
    ((room.getPlayer actor).discardCooldown > 0 →
      discardCards shuffle room actor = (room, [])) := by
  refine ⟨?_, ?_, ?_⟩
  · intro hsel hmax hused hcd hok
    rw [discardCards_eq_body shuffle room actor hstate hturn hsel hmax hused hcd]
    unfold discardCardsBody
    rw [if_neg (by simp [hok])]
    constructor <;> simp [getPlayer_setPlayer_self]
  · intro hsel hvalid hsurvive i
    exact playHand_cooldown_tick shuffle room actor hstate hturn hsel hvalid
      hsurvive i
  · intro hcd
    have h1 : ¬(room.gameState ≠ GameState.playing) := by simp [hstate]
    have h2 : ¬(actor ≠ room.currentPlayer) := by simp [hturn]
    have hguard : ((room.getPlayer actor).selectedCards.length == 0 ||
        (room.getPlayer actor).selectedCards.length >
          (room.getPlayer actor).maxCardsPerDiscard ||
        (room.getPlayer actor).discardsUsed ≥ (room.getPlayer actor).maxDiscards ||
        (room.getPlayer actor).discardCooldown > 0) = true := by
      simp [hcd]
    unfold discardCards
    simp only [if_neg h1, if_neg h2, if_pos hguard]

/-- C9 witness: in `lastDiscardRoom` the third discard sets the cooldown
to 5; in `cooldownRoom` (Recycling) a played hand drops player 0's
cooldown from 1 to 0 and resets their `discardsUsed`, drops player 1's
cooldown from 3 to 2 keeping `discardsUsed`, and a `discardCards` attempt
by player 0 is rejected outright. -/
theorem C9_recycling_cooldown_witness :
    ((discardCards id lastDiscardRoom 0).1.getPlayer 0).discardCooldown = 5 ∧
    ((discardCards id lastDiscardRoom 0).1.getPlayer 0).discardsUsed = 3 ∧
    ((playHand id cooldownRoom 0).1.getPlayer 0).discardCooldown = 0 ∧
    ((playHand id cooldownRoom 0).1.getPlayer 0).discardsUsed = 0 ∧
    ((playHand id cooldownRoom 0).1.getPlayer 1).discardCooldown = 2 ∧
    ((playHand id cooldownRoom 0).1.getPlayer 1).discardsUsed = 3 ∧
    discardCards id cooldownRoom 0 = (cooldownRoom, []) := by
  have ha := (C9_recycling_cooldown id lastDiscardRoom 0 rfl rfl).1
    (by decide) (by decide) (by decide) rfl (by decide)
  have hb := (C9_recycling_cooldown id cooldownRoom 0 rfl rfl).2.1
    (by decide) (by decide) (by decide)
  have hc := (C9_recycling_cooldown id cooldownRoom 0 rfl rfl).2.2 (by decide)
  refine ⟨?_, ?_, ?_, ?_, ?_, ?_, hc⟩
  · rw [ha.2]; decide
  · rw [ha.1]; decide
  · rw [(hb 0).1]; decide
  · rw [(hb 0).2]; decide
  · rw [(hb 1).1]; decide
  · rw [(hb 1).2]; decide

theorem cardTotal_applyPredictionMod (mode : GameMode) (e : Player)
    (hr : HandResult) : cardTotal (applyPredictionMod mode e hr).2 = cardTotal e := by
  unfold applyPredictionMod
  split_ifs
  · cases e.prediction <;> simp [cardTotal] <;> split_ifs <;> rfl
  · rfl

theorem cardTotal_applyArmorMod (mode : GameMode) (e : Player) (d : Nat) :
    cardTotal (applyArmorMod mode e d).2 = cardTotal e := by
  unfold applyArmorMod
  split_ifs <;> rfl

theorem cardTotal_replaceCardsPlayHand (shuffle : List Card → List Card)
    (hsh : lengthPreserving shuffle) (mode : GameMode) (p : Player) :
    cardTotal (replaceCardsPlayHand shuffle mode p) = cardTotal p := by
  unfold replaceCardsPlayHand
  rw [if_pos (Or.inr trivial)]
  have He := ensure_lengths shuffle hsh p.deck
    (addToDiscardPile p.discardPile (p.hand.filter (fun c => c.selected)))
    (p.hand.filter (fun c => c.selected)).length
  have Hf := length_filter_split p.hand
  simp only [cardTotal, drawCards, addToDiscardPile, List.length_append,
    List.length_take, List.length_drop, List.length_map] at He ⊢
  omega

theorem cardTotal_playHandSuccess (shuffle : List Card → List Card)
    (hsh : lengthPreserving shuffle) (room : Room) (actor : Fin 2) (i : Fin 2) :
    cardTotal ((playHandSuccess shuffle room actor).1.getPlayer i)
      = cardTotal (room.getPlayer i) := by
  have hrc := cardTotal_replaceCardsPlayHand shuffle hsh room.gameMode
    (room.getPlayer actor)
  have hp := cardTotal_applyPredictionMod room.gameMode
    (room.getPlayer (otherIdx actor)) (evaluateHand (room.getPlayer actor).selectedCards)
  have ha := cardTotal_applyArmorMod room.gameMode
    (applyPredictionMod room.gameMode (room.getPlayer (otherIdx actor))
      (evaluateHand (room.getPlayer actor).selectedCards)).2
    (applyPredictionMod room.gameMode (room.getPlayer (otherIdx actor))
      (evaluateHand (room.getPlayer actor).selectedCards)).1
  fin_cases actor <;> fin_cases i <;>
    (simp [playHandSuccess, Room.setPlayer, Room.getPlayer, otherIdx,
       cardTotal] at hrc hp ha ⊢
     split_ifs <;>
       (try simp [tickCooldownPlayHand, cardTotal]) <;>
       (try split_ifs) <;>
       (try simp [cardTotal]) <;>
       omega)

theorem cardTotal_buildArmorSuccess_actor (shuffle : List Card → List Card)
    (hsh : lengthPreserving shuffle) (room : Room) (actor : Fin 2) :
    cardTotal ((buildArmorSuccess shuffle room actor).1.getPlayer actor)
      + ((room.getPlayer actor).hand.filter (fun c => !c.selected)).length
      = cardTotal (room.getPlayer actor) := by
  have He := ensure_lengths shuffle hsh (room.getPlayer actor).deck
    (addToDiscardPile (room.getPlayer actor).discardPile
      ((room.getPlayer actor).hand.filter (fun c => c.selected)))
    8
  have Hf := length_filter_split (room.getPlayer actor).hand
  fin_cases actor <;>
    (simp [buildArmorSuccess, Room.setPlayer, Room.getPlayer, otherIdx,
       cardTotal, drawCards, addToDiscardPile, tickCooldownBuildArmor] at He Hf ⊢
     split_ifs <;> simp [cardTotal] <;> omega)

theorem cardTotal_buildArmorSuccess_other (shuffle : List Card → List Card)
    (room : Room) (actor : Fin 2) (j : Fin 2) (hj : j ≠ actor) :
    cardTotal ((buildArmorSuccess shuffle room actor).1.getPlayer j)
      = cardTotal (room.getPlayer j) := by
  fin_cases actor <;> fin_cases j <;>
    simp_all [buildArmorSuccess, Room.setPlayer, Room.getPlayer, otherIdx,
      cardTotal, tickCooldownBuildArmor] <;> split_ifs <;> simp [cardTotal]

theorem buildArmor_eq_success (shuffle : List Card → List Card) (room : Room)
    (actor : Fin 2) (hmode : room.gameMode = .tactical)
    (hstate : room.gameState = .playing) (hturn : actor = room.currentPlayer)
    (hsel : (room.getPlayer actor).selectedCards ≠ [])
    (hvalid : (validateHand (room.getPlayer actor).selectedCards).valid = true) :
    buildArmor shuffle room actor = buildArmorSuccess shuffle room actor := by
  have h1 : ¬(room.gameMode ≠ GameMode.tactical ∨
      room.gameState ≠ GameState.playing) := by simp [hmode, hstate]
  have h2 : ¬(actor ≠ room.currentPlayer) := by simp [hturn]
  have h3 : ¬(((room.getPlayer actor).selectedCards.length == 0) = true) := by
    simpa [List.length_eq_zero] using hsel
  have h4 : ¬((!(validateHand (room.getPlayer actor).selectedCards).valid) = true) := by
    simp [hvalid]
  unfold buildArmor
  simp only [if_neg h1, if_neg h2, if_neg h3, if_neg h4]

theorem cardTotal_discardCardsBody (shuffle : List Card → List Card)
    (hsh : lengthPreserving shuffle) (room : Room) (actor i : Fin 2)
    (hinv : selInv (room.getPlayer actor)) :
    cardTotal ((discardCardsBody shuffle room actor).1.getPlayer i)
      = cardTotal (room.getPlayer i) := by
  have hinvEq : (room.getPlayer actor).selectedCards
      = (room.getPlayer actor).hand.filter (fun c => c.selected) := hinv
  have He := ensure_lengths shuffle hsh (room.getPlayer actor).deck
    (room.getPlayer actor).discardPile (room.getPlayer actor).selectedCards.length
  have Hf := length_filter_split (room.getPlayer actor).hand
  have Hn : (room.getPlayer actor).selectedCards.length
      = ((room.getPlayer actor).hand.filter (fun c => c.selected)).length := by
    rw [hinvEq]
  by_cases hi : i = actor
  · subst hi
    simp only [discardCardsBody]
    split_ifs with hok hcd
    · rw [getPlayer_setPlayer_self]
      simp only [cardTotal]
      omega
    · have Hok := ensure_ok_length shuffle (room.getPlayer i).deck
        (room.getPlayer i).discardPile (room.getPlayer i).selectedCards.length
        (by simpa using hok)
      rw [getPlayer_setPlayer_self]
      simp only [cardTotal, drawCards, addToDiscardPile, List.length_append,
        List.length_take, List.length_drop, List.length_map]
      omega
    · have Hok := ensure_ok_length shuffle (room.getPlayer i).deck
        (room.getPlayer i).discardPile (room.getPlayer i).selectedCards.length
        (by simpa using hok)
      rw [getPlayer_setPlayer_self]
      simp only [cardTotal, drawCards, addToDiscardPile, List.length_append,
        List.length_take, List.length_drop, List.length_map]
      omega
  · simp only [discardCardsBody]
    split_ifs <;> rw [getPlayer_setPlayer_other _ _ _ _ hi]

/-! ## Claim C1 -/

/-- C1 (amended): card conservation.  Game start establishes
`|hand| + |deck| + |discardPile| = 52` for each player (given 52-card
decks), and `selectCard`, `markForDiscard`, `makePrediction`,
`discardCards` (all branches, including the failed-discard path, assuming
the stored selected-card list matches the hand's flags) and `playHand`
(all branches) preserve the total for both players, for any
length-preserving shuffle.  `buildArmor` preserves the total only for the
non-acting player: a successful `buildArmor` drops the actor's unselected
hand cards without moving them to the discard pile, so the actor's total
shrinks by exactly the number of unselected cards that were in hand. -/
theorem C1_card_conservation (shuffle : List Card → List Card)
    (hsh : lengthPreserving shuffle) :
    (∀ deck0 deck1 (first : Fin 2) (room : Room) (i : Fin 2),
      deck0.length = 52 → deck1.length = 52 →
      cardTotal ((startMultiplayerGame deck0 deck1 first room).getPlayer i) = 52) ∧
    (∀ (room : Room) (actor : Fin 2) (cardId : String) (i : Fin 2),
      cardTotal ((selectCard room actor cardId).1.getPlayer i)
        = cardTotal (room.getPlayer i)) ∧
    (∀ (room : Room) (actor : Fin 2) (cardId : String) (i : Fin 2),
      cardTotal ((markForDiscard room actor cardId).1.getPlayer i)
        = cardTotal (room.getPlayer i)) ∧
    (∀ (room : Room) (actor : Fin 2) (predStr : String) (i : Fin 2),
      cardTotal ((makePrediction room actor predStr).1.getPlayer i)
        = cardTotal (room.getPlayer i)) ∧
    (∀ (room : Room) (actor i : Fin 2), selInv (room.getPlayer actor) →
      cardTotal ((discardCards shuffle room actor).1.getPlayer i)
        = cardTotal (room.getPlayer i)) ∧
    (∀ (room : Room) (actor i : Fin 2),
      cardTotal ((playHand shuffle room actor).1.getPlayer i)
        = cardTotal (room.getPlayer i)) ∧
    (∀ (room : Room) (actor i : Fin 2), i ≠ actor →
      cardTotal ((buildArmor shuffle room actor).1.getPlayer i)
        = cardTotal (room.getPlayer i)) ∧
    (∀ (room : Room) (actor : Fin 2),
      room.gameMode = .tactical → room.gameState = .playing →
      actor = room.currentPlayer → (room.getPlayer actor).selectedCards ≠ [] →
      (validateHand (room.getPlayer actor).selectedCards).valid = true →
      cardTotal ((buildArmor shuffle room actor).1.getPlayer actor)
        + ((room.getPlayer actor).hand.filter (fun c => !c.selected)).length
        = cardTotal (room.getPlayer actor)) := by
  refine ⟨?_, ?_, ?_, ?_, ?_, ?_, ?_, ?_⟩
  · intro deck0 deck1 first room i h0 h1
    fin_cases i <;>
      simp [startMultiplayerGame, initPlayer, cardTotal, Room.getPlayer,
        h0, h1]
  · intro room actor cardId i
    simp only [selectCard]
    split_ifs
    · rfl
    · rfl
    · split
      · rfl
      · by_cases hi : i = actor
        · subst hi
          rw [getPlayer_setPlayer_self]
          simp [cardTotal, length_toggleSelectedFirst]
        · rw [getPlayer_setPlayer_other _ _ _ _ hi]
  · intro room actor cardId i
    simp only [markForDiscard]
    split_ifs
    · rfl
    · rfl
    · split
      · rfl
      · by_cases hi : i = actor
        · subst hi
          rw [getPlayer_setPlayer_self]
          simp [cardTotal, length_toggleMarkedFirst]
        · rw [getPlayer_setPlayer_other _ _ _ _ hi]
  · intro room actor predStr i
    simp only [makePrediction]
    split_ifs
    · rfl
    · rfl
    · by_cases hi : i = actor
      · subst hi
        rw [getPlayer_setPlayer_self]
        simp [cardTotal]
      · rw [getPlayer_setPlayer_other _ _ _ _ hi]
  · intro room actor i hinv
    simp only [discardCards]
    split_ifs
    · rfl
    · rfl
    · rfl
    · exact cardTotal_discardCardsBody shuffle hsh room actor i hinv
  · intro room actor i
    simp only [playHand]
    split_ifs
    · rfl
    · rfl
    · rfl
    · rfl
    · exact cardTotal_playHandSuccess shuffle hsh room actor i
  · intro room actor i hi
    simp only [buildArmor]
    split_ifs
    · rfl
    · rfl
    · rfl
    · rfl
    · exact cardTotal_buildArmorSuccess_other shuffle room actor i hi
  · intro room actor hmode hstate hturn hsel hvalid
    rw [buildArmor_eq_success shuffle room actor hmode hstate hturn hsel hvalid]
    exact cardTotal_buildArmorSuccess_actor shuffle hsh room actor

/-- C1 witness: the conservation theorem applied with the identity shuffle
to a freshly started Classic game and to a concrete `playHand` call. -/
theorem C1_card_conservation_witness :
    cardTotal ((startMultiplayerGame createDeckBase createDeckBase 0
        (waitingRoom .classic)).getPlayer 0) = 52 ∧
    cardTotal ((playHand id (selectCard (startedRoom .classic) 0
        "hearts-1").1 0).1.getPlayer 0)
      = cardTotal (((selectCard (startedRoom .classic) 0 "hearts-1").1).getPlayer 0) := by
  have h := C1_card_conservation id (fun l => rfl)
  exact ⟨h.1 createDeckBase createDeckBase 0 (waitingRoom .classic) 0
      (by decide) (by decide),
    h.2.2.2.2.2.1 ((selectCard (startedRoom .classic) 0 "hearts-1").1) 0 0⟩

theorem sortedRanks_sorted (cards : List Card) :
    (sortedRanks cards).Sorted (· ≤ ·) := by
  unfold sortedRanks
  exact List.sorted_insertionSort _ _

theorem sortedRanks_perm (cards : List Card) :
    (sortedRanks cards).Perm (cards.map (fun c => c.rank)) := by
  unfold sortedRanks
  exact List.perm_insertionSort _ _

theorem countsDesc_of_nodup (ranks : List Nat) (h : ranks.Nodup) :
    countsDesc ranks = List.replicate ranks.length 1 := by
  have hded : ranks.dedup = ranks := List.dedup_eq_self.mpr h
  have hval : rankCountValues ranks = List.replicate ranks.length 1 := by
    unfold rankCountValues
    rw [hded]
    rw [List.eq_replicate_iff]
    constructor
    · simp
    · intro b hb
      obtain ⟨r, hr, hrb⟩ := List.mem_map.mp hb
      rw [← hrb]
      exact List.count_eq_one_of_mem h hr
  unfold countsDesc
  rw [hval]
  exact List.perm_replicate.mp
    ((List.perm_insertionSort _ _).trans (List.Perm.refl _))

theorem exists_five {α : Type} (l : List α) (h : l.length = 5) :
    ∃ a b c d e, l = [a, b, c, d, e] := by
  rcases l with _ | ⟨a, l⟩; · simp at h
  rcases l with _ | ⟨b, l⟩; · simp at h
  rcases l with _ | ⟨c, l⟩; · simp at h
  rcases l with _ | ⟨d, l⟩; · simp at h
  rcases l with _ | ⟨e, l⟩; · simp at h
  rcases l with _ | ⟨f, l⟩
  · exact ⟨a, b, c, d, e, rfl⟩
  · simp at h

theorem ace_nonflush_valid_iff (cards : List Card)
    (hlen : cards.length = 5)
    (hnodup : (cards.map (fun c => c.rank)).Nodup)
    (hace : 1 ∈ cards.map (fun c => c.rank))
    (hlb : ∀ c ∈ cards, 1 ≤ c.rank)
    (hflush : isFlushB cards = false) :
    ((validateHand cards).valid = true ↔
      sortedRanks cards = [1, 2, 3, 4, 5] ∨
      sortedRanks cards = [1, 10, 11, 12, 13]) := by
  have hsn : (sortedRanks cards).Nodup := (sortedRanks_perm cards).symm.nodup hnodup
  have hslen : (sortedRanks cards).length = 5 := by
    rw [(sortedRanks_perm cards).length_eq, List.length_map, hlen]
  have hfive : fiveDistinct cards = true := by
    simp [fiveDistinct, hlen, List.dedup_eq_self.mpr hsn, hslen]
  have hcounts : countsDesc (sortedRanks cards) = List.replicate 5 1 := by
    rw [countsDesc_of_nodup _ hsn, hslen]
  have hcounts0 : (countsDesc (sortedRanks cards)).getD 0 0 = 1 := by
    rw [hcounts]; rfl
  have hmem1 : 1 ∈ sortedRanks cards := (sortedRanks_perm cards).mem_iff.mpr hace
  have hbound : ∀ r ∈ sortedRanks cards, 1 ≤ r := by
    intro r hr
    obtain ⟨c, hc, hcr⟩ := List.mem_map.mp ((sortedRanks_perm cards).subset hr)
    rw [← hcr]
    exact hlb c hc
  have hsorted := sortedRanks_sorted cards
  obtain ⟨a, b, c, d, e, hs⟩ := exists_five (sortedRanks cards) hslen
  have hroyal : isRoyalB cards = false := by
    simp [isRoyalB, hflush]
  have hstraightF : isStraightB cards = false := by
    by_contra hstr
    rw [Bool.not_eq_false] at hstr
    have hcomp := hstr
    simp only [isStraightB, Bool.and_eq_true, Bool.not_eq_true',
      beq_iff_eq] at hcomp
    obtain ⟨⟨-, hlowF⟩, hdiff⟩ := hcomp
    rw [hs] at hsorted hsn hmem1 hbound hdiff
    simp only [List.Sorted, List.pairwise_cons] at hsorted
    have hab : a ≤ b := hsorted.1 b (by simp)
    have hbc : b ≤ c := hsorted.2.1 c (by simp)
    have hcd : c ≤ d := hsorted.2.2.1 d (by simp)
    have hde : d ≤ e := hsorted.2.2.2.1 e (by simp)
    simp only [List.nodup_cons, List.mem_cons, List.not_mem_nil, or_false,
      List.mem_singleton, not_or] at hsn
    obtain ⟨⟨hnab, -, -, -⟩, ⟨hnbc, -, -⟩, ⟨hncd, -⟩, hnde, -⟩ := hsn
    simp only [List.getD_cons_succ, List.getD_cons_zero] at hdiff
    simp only [List.mem_cons, List.not_mem_nil, or_false] at hmem1
    have hb1 : 1 ≤ a := hbound a (by simp)
    have hval : a = 1 ∧ b = 2 ∧ c = 3 ∧ d = 4 ∧ e = 5 := by
      rcases hmem1 with h | h | h | h | h <;> omega
    have hlowT : isLowStraightB cards = true := by
      simp [isLowStraightB, hfive, hs, hval.1, hval.2.1, hval.2.2.1,
        hval.2.2.2.1, hval.2.2.2.2]
    rw [hlowF] at hlowT
    exact Bool.false_ne_true hlowT
  have hcounts0q : (countsDesc (sortedRanks cards))[0]?.getD 0 = 1 := by
    rw [hcounts]; rfl
  have hvalid_iff : (validateHand cards).valid = true ↔
      (isLowStraightB cards = true ∨ isBroadwayStraightB cards = true) := by
    simp only [validateHand, hlen]
    norm_num
    simp only [hroyal, hflush, hstraightF, Bool.false_and, Bool.and_false,
      Bool.false_or, if_false]
    by_cases h : isLowStraightB cards = true ∨ isBroadwayStraightB cards = true <;>
      simp [h, hcounts0q]
  rw [hvalid_iff]
  simp [isLowStraightB, isBroadwayStraightB, hfive]

/-! ## Claim C8 -/

/-- C8: the Ace-high and low straight rules.  Ranks `[1,2,3,4,5]` with
mixed suits are a valid "Straight"; ranks `[1,10,11,12,13]` of one suit
are a "Royal Flush" (the royal check precedes the straight-flush check in
the classification chain); the same broadway ranks with mixed suits are a
valid "Straight"; and in general a non-flush five-card hand with five
distinct ranks containing the Ace (all ranks ≥ 1) validates exactly when
its sorted ranks are `[1,2,3,4,5]` or `[1,10,11,12,13]` — no other
Ace-high run is legal. -/
theorem C8_ace_straight_rules :
    (validateHand lowStraightMixed).valid = true ∧
    (evaluateHand lowStraightMixed).type = "Straight" ∧
    (evaluateHand broadwaySuited).type = "Royal Flush" ∧
    (validateHand broadwayMixed).valid = true ∧
    (evaluateHand broadwayMixed).type = "Straight" ∧
    (∀ cards : List Card, cards.length = 5 →
      (cards.map (fun c => c.rank)).Nodup →
      1 ∈ cards.map (fun c => c.rank) →
      (∀ c ∈ cards, 1 ≤ c.rank) →
      isFlushB cards = false →
      ((validateHand cards).valid = true ↔
        sortedRanks cards = [1, 2, 3, 4, 5] ∨
        sortedRanks cards = [1, 10, 11, 12, 13])) := by
  refine ⟨by decide, by decide, by decide, by decide, by decide, ?_⟩
  intro cards h1 h2 h3 h4 h5
  exact ace_nonflush_valid_iff cards h1 h2 h3 h4 h5

/-- C8 witness: the general part applied to the concrete ace-high run
1,3,4,5,6 (mixed suits), which is therefore invalid. -/
theorem C8_ace_straight_rules_witness :
    (validateHand aceJunk).valid = false := by
  have h := C8_ace_straight_rules.2.2.2.2.2 aceJunk (by decide) (by decide)
    (by decide) (by decide) (by decide)
  have hne : ¬(sortedRanks aceJunk = [1, 2, 3, 4, 5] ∨
      sortedRanks aceJunk = [1, 10, 11, 12, 13]) := by decide
  have hnv : ¬((validateHand aceJunk).valid = true) := fun hv => hne (h.mp hv)
  simpa using hnv

theorem filter_sel_of_filter_not (l : List Card) :
    (l.filter (fun c => !c.selected)).filter (fun c => c.selected) = [] := by
  induction l with
  | nil => rfl
  | cons x rest ih => by_cases hx : x.selected <;> simp [hx, ih]

theorem filter_sel_clean (l : List Card) :
    (l.map cleanCard).filter (fun c => c.selected) = [] := by
  induction l with
  | nil => rfl
  | cons x rest ih => simp [cleanCard, ih]

theorem toggleMarked_filter (hand : List Card) (cardId : String) (card : Card)
    (hfind : findCard hand cardId = some card) :
    (toggleMarkedFirst hand cardId).filter (fun c => c.selected)
      = (if card.selected
         then toggleMarkedFirst (hand.filter (fun c => c.selected)) cardId
         else hand.filter (fun c => c.selected)) := by
  induction hand with
  | nil => simp [findCard] at hfind
  | cons x rest ih =>
    by_cases hx : (x.id == cardId) = true
    · have hcard : card = x := by
        simp [findCard, List.find?, hx] at hfind
        exact hfind.symm
      subst hcard
      by_cases hsel : card.selected
      · simp [toggleMarkedFirst, hx, hsel]
      · simp [toggleMarkedFirst, hx, hsel]
    · have hfind' : findCard rest cardId = some card := by
        simpa [findCard, List.find?, hx] using hfind
      have ihr := ih hfind'
      by_cases hsel : card.selected <;>
        by_cases hxsel : x.selected <;>
        simp_all [toggleMarkedFirst, hx]

theorem map_cardKey_toggleMarked (l : List Card) (cardId : String) :
    (toggleMarkedFirst l cardId).map
        (fun c => (c.id, c.suit, c.rank, c.selected))
      = l.map (fun c => (c.id, c.suit, c.rank, c.selected)) := by
  induction l with
  | nil => rfl
  | cons x rest ih =>
    unfold toggleMarkedFirst
    split_ifs <;> simp [ih]

theorem applyPredictionMod_handSel (mode : GameMode) (e : Player)
    (hr : HandResult) :
    (applyPredictionMod mode e hr).2.hand = e.hand ∧
    (applyPredictionMod mode e hr).2.selectedCards = e.selectedCards := by
  unfold applyPredictionMod
  split_ifs
  · cases e.prediction <;> simp <;> split_ifs <;> exact ⟨rfl, rfl⟩
  · exact ⟨rfl, rfl⟩

theorem applyArmorMod_handSel (mode : GameMode) (e : Player) (d : Nat) :
    (applyArmorMod mode e d).2.hand = e.hand ∧
    (applyArmorMod mode e d).2.selectedCards = e.selectedCards := by
  unfold applyArmorMod
  split_ifs <;> exact ⟨rfl, rfl⟩

theorem tickPlayHand_handSel (mode : GameMode) (p : Player) :
    (tickCooldownPlayHand mode p).hand = p.hand ∧
    (tickCooldownPlayHand mode p).selectedCards = p.selectedCards := by
  unfold tickCooldownPlayHand
  split_ifs <;> exact ⟨rfl, rfl⟩

theorem tickBuildArmor_handSel (p : Player) :
    (tickCooldownBuildArmor p).hand = p.hand ∧
    (tickCooldownBuildArmor p).selectedCards = p.selectedCards := by
  unfold tickCooldownBuildArmor
  split_ifs <;> exact ⟨rfl, rfl⟩

theorem replaceCardsPlayHand_selected (shuffle : List Card → List Card)
    (mode : GameMode) (p : Player) :
    (replaceCardsPlayHand shuffle mode p).selectedCards = [] ∧
    (replaceCardsPlayHand shuffle mode p).hand.filter (fun c => c.selected)
      = [] := by
  unfold replaceCardsPlayHand
  rw [if_pos (Or.inr trivial)]
  exact ⟨rfl, by
    simp only [drawCards, List.filter_append, filter_sel_of_filter_not,
      filter_sel_clean, List.nil_append]⟩

theorem playHandSuccess_actor_selected (shuffle : List Card → List Card)
    (room : Room) (actor : Fin 2) :
    ((playHandSuccess shuffle room actor).1.getPlayer actor).selectedCards
        = [] ∧
    ((playHandSuccess shuffle room actor).1.getPlayer actor).hand.filter
        (fun c => c.selected) = [] := by
  have hrs := replaceCardsPlayHand_selected shuffle room.gameMode
    (room.getPlayer actor)
  fin_cases actor <;>
    (simp only [Room.getPlayer] at hrs
     norm_num at hrs
     refine ⟨?_, ?_⟩ <;>
       (simp [playHandSuccess, Room.setPlayer, Room.getPlayer, otherIdx]
        split_ifs <;>
          (try simp [tickCooldownPlayHand]) <;>
          (try split_ifs) <;>
          simp_all))

theorem playHandSuccess_enemy_handSel (shuffle : List Card → List Card)
    (room : Room) (actor : Fin 2) :
    ((playHandSuccess shuffle room actor).1.getPlayer (otherIdx actor)).hand
        = (room.getPlayer (otherIdx actor)).hand ∧
    ((playHandSuccess shuffle room actor).1.getPlayer
        (otherIdx actor)).selectedCards
      = (room.getPlayer (otherIdx actor)).selectedCards := by
  have hp := applyPredictionMod_handSel room.gameMode
    (room.getPlayer (otherIdx actor)) (evaluateHand (room.getPlayer actor).selectedCards)
  have ha := applyArmorMod_handSel room.gameMode
    (applyPredictionMod room.gameMode (room.getPlayer (otherIdx actor))
      (evaluateHand (room.getPlayer actor).selectedCards)).2
    (applyPredictionMod room.gameMode (room.getPlayer (otherIdx actor))
      (evaluateHand (room.getPlayer actor).selectedCards)).1
  fin_cases actor <;>
    (simp [Room.getPlayer, otherIdx, Fin.ext_iff] at hp ha
     refine ⟨?_, ?_⟩ <;>
       (simp [playHandSuccess, Room.setPlayer, Room.getPlayer, otherIdx]
        split_ifs <;>
          (try simp [tickCooldownPlayHand]) <;>
          (try split_ifs) <;>
          simp_all))

theorem selected_false_of_mem_clean (l : List Card) :
    ∀ a ∈ l.map cleanCard, a.selected = false := by
  intro a ha
  obtain ⟨c, -, rfl⟩ := List.mem_map.mp ha
  rfl

theorem buildArmorSuccess_actor_selected (shuffle : List Card → List Card)
    (room : Room) (actor : Fin 2) :
    ((buildArmorSuccess shuffle room actor).1.getPlayer actor).selectedCards
        = [] ∧
    ((buildArmorSuccess shuffle room actor).1.getPlayer actor).hand.filter
        (fun c => c.selected) = [] := by
  fin_cases actor <;>
    (simp [buildArmorSuccess, Room.setPlayer, Room.getPlayer, otherIdx,
       tickCooldownBuildArmor]
     split_ifs <;>
       (refine ⟨rfl, ?_⟩
        intro a ha
        first
          | exact selected_false_of_mem_clean _ a ha
          | exact selected_false_of_mem_clean _ a (List.mem_of_mem_take ha)))

theorem buildArmorSuccess_other_handSel (shuffle : List Card → List Card)
    (room : Room) (actor : Fin 2) (j : Fin 2) (hj : j ≠ actor) :
    ((buildArmorSuccess shuffle room actor).1.getPlayer j).hand
        = (room.getPlayer j).hand ∧
    ((buildArmorSuccess shuffle room actor).1.getPlayer j).selectedCards
      = (room.getPlayer j).selectedCards := by
  fin_cases actor <;> fin_cases j <;>
    simp_all [buildArmorSuccess, Room.setPlayer, Room.getPlayer, otherIdx,
      tickCooldownBuildArmor] <;> split_ifs <;> simp

theorem eq_otherIdx_of_ne (i j : Fin 2) (h : i ≠ j) : i = otherIdx j := by
  fin_cases i <;> fin_cases j <;> simp_all [otherIdx]

/-! ## Claim C10 -/

/-- C10: selected-card list consistency.  Game start (and the identical
rematch re-initialization) clears `selectedCards` and establishes the
invariant `selectedCards = hand.filter(selected)` (given freshly created,
unselected decks); every handler preserves the invariant for both
players; `selectCard` recomputes the list from the hand whenever it acts
at all; a successful `discardCards`, `playHand` or `buildArmor` resets the
actor's list to empty; and `markForDiscard` never changes the list — in
the source it holds references to the very card objects of the hand, so
the value-level statement is that the list is unchanged up to the
`markedForDiscard` flag (id, suit, rank and `selected` are untouched). -/
theorem C10_selected_cards_consistency (shuffle : List Card → List Card) :
    (∀ deck0 deck1 (first : Fin 2) (room : Room) (i : Fin 2),
      (∀ c ∈ deck0, c.selected = false) → (∀ c ∈ deck1, c.selected = false) →
      ((startMultiplayerGame deck0 deck1 first room).getPlayer i).selectedCards
          = [] ∧
      selInv ((startMultiplayerGame deck0 deck1 first room).getPlayer i)) ∧
    (∀ (room : Room) (actor : Fin 2) (cardId : String) (i : Fin 2),
      selInv (room.getPlayer i) →
      selInv ((selectCard room actor cardId).1.getPlayer i)) ∧
    (∀ (room : Room) (actor : Fin 2) (cardId : String),
      ((selectCard room actor cardId).1.getPlayer actor).selectedCards
          = ((selectCard room actor cardId).1.getPlayer actor).hand.filter
              (fun c => c.selected) ∨
      selectCard room actor cardId = (room, [])) ∧
    (∀ (room : Room) (actor : Fin 2) (cardId : String) (i : Fin 2),
      selInv (room.getPlayer i) →
      selInv ((markForDiscard room actor cardId).1.getPlayer i)) ∧
    (∀ (room : Room) (actor : Fin 2) (cardId : String) (i : Fin 2),
      ((markForDiscard room actor cardId).1.getPlayer i).selectedCards.map
          (fun c => (c.id, c.suit, c.rank, c.selected))
        = (room.getPlayer i).selectedCards.map
            (fun c => (c.id, c.suit, c.rank, c.selected))) ∧
    (∀ (room : Room) (actor : Fin 2) (predStr : String) (i : Fin 2),
      selInv (room.getPlayer i) →
      selInv ((makePrediction room actor predStr).1.getPlayer i)) ∧
    (∀ (room : Room) (actor i : Fin 2),
      selInv (room.getPlayer i) →
      selInv ((discardCards shuffle room actor).1.getPlayer i)) ∧
    (∀ (room : Room) (actor i : Fin 2),
      selInv (room.getPlayer i) →
      selInv ((playHand shuffle room actor).1.getPlayer i)) ∧
    (∀ (room : Room) (actor i : Fin 2),
      selInv (room.getPlayer i) →
      selInv ((buildArmor shuffle room actor).1.getPlayer i)) ∧
    (∀ (room : Room) (actor : Fin 2),
      room.gameState = .playing → actor = room.currentPlayer →
      (room.getPlayer actor).selectedCards ≠ [] →
      (validateHand (room.getPlayer actor).selectedCards).valid = true →
      ((playHand shuffle room actor).1.getPlayer actor).selectedCards = []) ∧
    (∀ (room : Room) (actor : Fin 2),
      room.gameMode = .tactical → room.gameState = .playing →
      actor = room.currentPlayer →
      (room.getPlayer actor).selectedCards ≠ [] →
      (validateHand (room.getPlayer actor).selectedCards).valid = true →
      ((buildArmor shuffle room actor).1.getPlayer actor).selectedCards = []) := by
  refine ⟨?_, ?_, ?_, ?_, ?_, ?_, ?_, ?_, ?_, ?_, ?_⟩
  · intro deck0 deck1 first room i h0 h1
    fin_cases i <;>
      (refine ⟨rfl, ?_⟩
       simp only [startMultiplayerGame, initPlayer, selInv, Room.getPlayer]
       norm_num
       intro a ha
       first
         | exact h0 a (List.mem_of_mem_take ha)
         | exact h1 a (List.mem_of_mem_take ha))
  · intro room actor cardId i hinv
    simp only [selectCard]
    split_ifs
    · exact hinv
    · exact hinv
    · split
      · exact hinv
      · by_cases hi : i = actor
        · subst hi
          rw [getPlayer_setPlayer_self]
          simp [selInv]
        · rw [getPlayer_setPlayer_other _ _ _ _ hi]
          exact hinv
  · intro room actor cardId
    simp only [selectCard]
    split_ifs
    · exact Or.inr rfl
    · exact Or.inr rfl
    · split
      · exact Or.inr rfl
      · left
        rw [getPlayer_setPlayer_self]
  · intro room actor cardId i hinv
    simp only [markForDiscard]
    split_ifs
    · exact hinv
    · exact hinv
    · split
      · exact hinv
      · rename_i card heq
        by_cases hi : i = actor
        · subst hi
          rw [getPlayer_setPlayer_self]
          have hinvEq : (room.getPlayer i).selectedCards
              = (room.getPlayer i).hand.filter (fun c => c.selected) := hinv
          show (if card.selected then _ else _) = _
          rw [hinvEq]
          exact (toggleMarked_filter (room.getPlayer i).hand cardId card heq).symm
        · rw [getPlayer_setPlayer_other _ _ _ _ hi]
          exact hinv
  · intro room actor cardId i
    simp only [markForDiscard]
    split_ifs
    · rfl
    · rfl
    · split
      · rfl
      · rename_i card heq
        by_cases hi : i = actor
        · subst hi
          rw [getPlayer_setPlayer_self]
          show ((if card.selected then _ else _) : List Card).map _ = _
          split_ifs
          · exact map_cardKey_toggleMarked _ cardId
          · rfl
        · rw [getPlayer_setPlayer_other _ _ _ _ hi]
  · intro room actor predStr i hinv
    simp only [makePrediction]
    split_ifs
    · exact hinv
    · exact hinv
    · by_cases hi : i = actor
      · subst hi
        rw [getPlayer_setPlayer_self]
        exact hinv
      · rw [getPlayer_setPlayer_other _ _ _ _ hi]
        exact hinv
  · intro room actor i hinv
    simp only [discardCards]
    split_ifs
    · exact hinv
    · exact hinv
    · exact hinv
    · simp only [discardCardsBody]
      split_ifs
      · by_cases hi : i = actor
        · subst hi
          rw [getPlayer_setPlayer_self]
          exact hinv
        · rw [getPlayer_setPlayer_other _ _ _ _ hi]
          exact hinv
      · by_cases hi : i = actor
        · subst hi
          rw [getPlayer_setPlayer_self]
          show ([] : List Card) = _
          refine (List.filter_eq_nil.mpr ?_).symm
          intro a ha
          rcases List.mem_append.mp ha with h | h
          · simpa using List.of_mem_filter h
          · simp [selected_false_of_mem_clean _ a h]
        · rw [getPlayer_setPlayer_other _ _ _ _ hi]
          exact hinv
      · by_cases hi : i = actor
        · subst hi
          rw [getPlayer_setPlayer_self]
          show ([] : List Card) = _
          refine (List.filter_eq_nil.mpr ?_).symm
          intro a ha
          rcases List.mem_append.mp ha with h | h
          · simpa using List.of_mem_filter h
          · simp [selected_false_of_mem_clean _ a h]
        · rw [getPlayer_setPlayer_other _ _ _ _ hi]
          exact hinv
  · intro room actor i hinv
    simp only [playHand]
    split_ifs
    · exact hinv
    · exact hinv
    · exact hinv
    · exact hinv
    · by_cases hi : i = actor
      · subst hi
        have h := playHandSuccess_actor_selected shuffle room i
        simp [selInv, h.1, h.2]
      · have hoth : i = otherIdx actor := eq_otherIdx_of_ne i actor hi
        subst hoth
        have h := playHandSuccess_enemy_handSel shuffle room actor
        have hinvEq : (room.getPlayer (otherIdx actor)).selectedCards
            = (room.getPlayer (otherIdx actor)).hand.filter
                (fun c => c.selected) := hinv
        show _ = _
        rw [selInv] at *
        rw [h.1, h.2]
        exact hinvEq
  · intro room actor i hinv
    simp only [buildArmor]
    split_ifs
    · exact hinv
    · exact hinv
    · exact hinv
    · exact hinv
    · by_cases hi : i = actor
      · subst hi
        have h := buildArmorSuccess_actor_selected shuffle room i
        simp [selInv, h.1, h.2]
      · have h := buildArmorSuccess_other_handSel shuffle room actor i hi
        have hinvEq : (room.getPlayer i).selectedCards
            = (room.getPlayer i).hand.filter (fun c => c.selected) := hinv
        rw [selInv] at *
        rw [h.1, h.2]
        exact hinvEq
  · intro room actor hstate hturn hsel hvalid
    rw [playHand_eq_success shuffle room actor hstate hturn hsel hvalid]
    exact (playHandSuccess_actor_selected shuffle room actor).1
  · intro room actor hmode hstate hturn hsel hvalid
    rw [buildArmor_eq_success shuffle room actor hmode hstate hturn hsel hvalid]
    exact (buildArmorSuccess_actor_selected shuffle room actor).1

/-- C10 witness: the consistency theorem applied to a started Classic
room: a concrete `selectCard` keeps the invariant, a concrete
`markForDiscard` leaves the selected list unchanged up to the mark flag,
and a concrete successful `playHand` clears it. -/
theorem C10_selected_cards_consistency_witness :
    selInv ((selectCard (startedRoom .classic) 0 "hearts-1").1.getPlayer 0) ∧
    ((markForDiscard (startedRoom .classic) 0 "hearts-2").1.getPlayer
        0).selectedCards.map (fun c => (c.id, c.suit, c.rank, c.selected))
      = ((startedRoom .classic).getPlayer 0).selectedCards.map
          (fun c => (c.id, c.suit, c.rank, c.selected)) ∧
    ((playHand id (selectCard (startedRoom .classic) 0
        "hearts-1").1 0).1.getPlayer 0).selectedCards = [] := by
  have h := C10_selected_cards_consistency id
  refine ⟨h.2.1 (startedRoom .classic) 0 "hearts-1" 0
      (show _ = _ by decide),
    h.2.2.2.2.1 (startedRoom .classic) 0 "hearts-2" 0, ?_⟩
  exact h.2.2.2.2.2.2.2.2.2.1 _ 0 rfl rfl (by decide) (by decide)
